import Mathlib

/-!
Verification development for the staged-commit-and-undo engine of the
QC_Gui coastal-survey tool.

The Lean definitions below are a shallow embedding of the Python source:

* `src/qc_application/services/topo_qc_migrate_staging_data.py`
  (class `MigrateStagingToLive`): staging verification, master-profile
  change detection, CPA recomputation, and the single-transaction live
  update used by the Push-to-Dash page.
* `src/qc_application/gui/pages/topo_profile_viewer_page.py`
  (profile-viewer session): per-table commit with history backup
  (`updateMpDatabase`, `updateCpaDatabase`, `updateTopoDatabase`),
  QC-log reconciliation (`updateQClogDatabase`) and per-table undo
  (`undoMpDatabase`, `undoCpaDatabase`, `undoTopoDatabase`).

Database tables are modelled as Lean lists of typed rows (a list is the
table's insertion order; where a property is order-insensitive it is
stated up to permutation).  SQL `now()` is modelled by an explicit clock
argument: separate transactions observe strictly increasing timestamps.
Python exceptions that escape a function are modelled with `Except`;
`try/except SQLAlchemyError` blocks that swallow a database error and
leave the transaction rolled back are modelled by a Boolean
fail-injection argument on the corresponding operation (the operation
returns its input state unchanged when the flag is set).  Database
connections are assumed to establish successfully (no claim concerns
connection failure).
-/

namespace QCGui

/-- One row of `topo_qc.cpa_table` / `staging_data.cpa_table` (a derived
cut-fill area value, one per survey unit, date and profile). -/
structure CpaRow where
  survey_unit : String
  date : Nat
  profile : String
  area : Int
deriving DecidableEq, Repr

/-- One row of `topo_qc.master_profiles` / `staging_data.master_profiles`
(a reference-profile vertex).  `sequence` is nullable in the schema, so it
is an `Option`. -/
structure MpRow where
  profile_id : String
  date : Nat
  chainage : Int
  elevation : Int
  sequence : Option Int
deriving DecidableEq, Repr

/-- One row of `topo_qc.topo_data` / `staging_data.topo_data`
(a measured survey point). -/
structure TopoRow where
  easting : Int
  northing : Int
  elevation_od : Int
  chainage : Int
  fc : String
  profile : String
  reg_id : String
  survey_unit : String
  date : Nat
  year : Int
  month : Int
deriving DecidableEq, Repr

/-- One row of `topo_qc.cpa_table_history`: a live CPA row as it existed
before a commit, stamped with `changed_at` and `user_name`. -/
structure CpaHistRow where
  row : CpaRow
  changed_at : Nat
  user_name : String
deriving DecidableEq, Repr

/-- One row of `topo_qc.master_profiles_history`. -/
structure MpHistRow where
  row : MpRow
  changed_at : Nat
  user_name : String
deriving DecidableEq, Repr

/-- One row of `topo_qc.topo_data_history`. -/
structure TopoHistRow where
  row : TopoRow
  changed_at : Nat
  user_name : String
deriving DecidableEq, Repr

/-- One row of `topo_qc.qc_log`.  The dynamically named check columns
(`checks_pl_point_spacing`, ..., and their `_c` comment columns) are kept
as an association list from column name to value, because the source
builds the column names at runtime. -/
structure QcLogRow where
  survey_id : Nat
  survey_unit : String
  completion_date : Nat
  pushed_to_dash : Bool
  fields : List (String × String)
deriving DecidableEq, Repr

/-- One row of `topo_qc.topo_issue_history` (used by `undoQcLogFlags`). -/
structure IssueHistRow where
  survey_id : Nat
  issue_field : String
  old_issue_comment : String
  new_issue_status : String
  updated_at : Nat
deriving DecidableEq, Repr

/-- The database state: three live tables, their three history tables,
the staging schema (including the staging history tables that
`update_live_tables` clears), the QC log and the issue history. -/
structure DB where
  live_cpa : List CpaRow
  live_mp : List MpRow
  live_topo : List TopoRow
  hist_cpa : List CpaHistRow
  hist_mp : List MpHistRow
  hist_topo : List TopoHistRow
  staging_cpa : List CpaRow
  staging_mp : List MpRow
  staging_topo : List TopoRow
  staging_cpa_hist : List CpaRow
  staging_mp_hist : List MpRow
  staging_topo_hist : List TopoRow
  qc_log : List QcLogRow
  issue_hist : List IssueHistRow
deriving DecidableEq, Repr

/-- A pandas dataframe of master-profile rows.  `hasSeqCol` records
whether the dataframe has a `sequence` column at all (the source tests
`'sequence' not in df.columns`, a dataframe-level property); when the
column is absent the per-row `sequence` values are irrelevant and the
code assigns them before use. -/
structure MpFrame where
  rows : List MpRow
  hasSeqCol : Bool
deriving DecidableEq, Repr

/-- Python exceptions that can escape the modelled functions. -/
inductive PyErr where
  | typeError
  | valueError
  | sqlError
deriving DecidableEq, Repr

/-- Decidable equality of `Except` results, needed to evaluate the
closed statements below. -/
instance instDecEqExcept {ε α : Type} [DecidableEq ε] [DecidableEq α] :
    DecidableEq (Except ε α) := fun a b =>
  match a, b with
  | Except.error e, Except.error f => decidable_of_iff (e = f) (by simp)
  | Except.ok x, Except.ok y => decidable_of_iff (x = y) (by simp)
  | Except.error _, Except.ok _ => isFalse (by simp)
  | Except.ok _, Except.error _ => isFalse (by simp)

/-- Result signal of one table's undo, mirroring the message boxes of
`undoMpDatabase` / `undoCpaDatabase` / `undoTopoDatabase`: `restored`
(rows put back), `nothingToUndo` ("No Changes to Undo"), `noRows`
("No ... found for this change"), `dbError` (SQLAlchemyError swallowed). -/
inductive UndoOutcome where
  | restored
  | nothingToUndo
  | noRows
  | dbError
deriving DecidableEq, Repr

/-- Worker for `dedupFirst`: keep each element not seen before. -/
def dedupFirstAux {α : Type} [DecidableEq α] (seen : List α) : List α → List α
  | [] => []
  | a :: l =>
    if seen.contains a then dedupFirstAux seen l
    else a :: dedupFirstAux (a :: seen) l

/-- First-occurrence deduplication, the semantics of pandas
`Series.unique()` used throughout the source. -/
def dedupFirst {α : Type} [DecidableEq α] (l : List α) : List α :=
  dedupFirstAux [] l

/-- Stable insertion of an element into a sorted list. -/
def insertLe {α : Type} (le : α → α → Bool) (a : α) : List α → List α
  | [] => [a]
  | b :: l => if le a b then a :: b :: l else b :: insertLe le a l

/-- Stable insertion sort, the model of SQL `ORDER BY` and of pandas
`sort_values` (the database and pandas fix *some* order among equal
keys; this model fixes the stable one). -/
def sortByLe {α : Type} (le : α → α → Bool) (l : List α) : List α :=
  l.foldr (insertLe le) []

/-- Mutable state of a `MigrateStagingToLive` instance
(`topo_qc_migrate_staging_data.py`, `__init__`, lines 10-18).
`changed_mp_profiles` is `some []` initially (Python `[]`) and may become
`none` (Python `None`) after `check_for_mp_changes`. -/
structure MigState where
  edit_mode : String
  edit_mode_target : Option (List String × Nat)
  all_cpa_data : List CpaRow
  all_mp_data : List MpRow
  all_topo_data : List TopoRow
  changed_mp_profiles : Option (List String)
deriving DecidableEq, Repr

/-- `MigrateStagingToLive.__init__` with explicit arguments; the source's
defaults are `edit_mode='qc'`, `edit_mode_target=None`. -/
def initMigState (edit_mode : String) (edit_mode_target : Option (List String × Nat)) :
    MigState :=
  { edit_mode := edit_mode
    edit_mode_target := edit_mode_target
    all_cpa_data := []
    all_mp_data := []
    all_topo_data := []
    changed_mp_profiles := some [] }

/-- Python truthiness of `self.changed_mp_profiles`: both `None` and the
empty list are falsy. -/
def isTruthyChanged : Option (List String) → Bool
  | none => false
  | some l => !l.isEmpty

/-- `MigrateStagingToLive.check_all_tables_have_matching_data`
(lines 41-68): every profile referenced by the staged CPA rows must occur
among the staged master-profile ids, every survey unit and every profile
referenced by the staged CPA rows must occur in the staged topo rows. -/
def check_all_tables_have_matching_data
    (cpa_df : List CpaRow) (mp_df : List MpRow) (topo_df : List TopoRow) : Bool :=
  let all_survey_units := dedupFirst (cpa_df.map (·.survey_unit))
  let all_profiles := dedupFirst (cpa_df.map (·.profile))
  let mp_profiles := dedupFirst (mp_df.map (·.profile_id))
  let topo_survey_units := dedupFirst (topo_df.map (·.survey_unit))
  let topo_profiles := dedupFirst (topo_df.map (·.profile))
  all_profiles.all (fun p => mp_profiles.contains p) &&
    all_survey_units.all (fun su => topo_survey_units.contains su) &&
    all_profiles.all (fun p => topo_profiles.contains p)

/-- Lexicographic comparison of codepoint lists. -/
def charListLt : List Nat → List Nat → Bool
  | [], [] => false
  | [], _ :: _ => true
  | _ :: _, [] => false
  | a :: as, b :: bs =>
    if a < b then true else if b < a then false else charListLt as bs

/-- Lexicographic string comparison by codepoint, the order Python and
pandas use when sorting string ids (equivalent to the standard string
order; spelled out on codepoints so that it evaluates). -/
def strLtB (a b : String) : Bool :=
  charListLt (a.toList.map Char.toNat) (b.toList.map Char.toNat)

/-- Stable sort of master-profile rows by `profile_id`, modelling
`sort_values("profile_id")` in `check_for_mp_changes` (rows with equal
ids keep their relative order). -/
def sortMpByProfileId (l : List MpRow) : List MpRow :=
  sortByLe (fun a b => !strLtB b.profile_id a.profile_id) l

/-- `MigrateStagingToLive.check_for_mp_changes` (lines 70-108).  The
staged master-profile rows are compared positionally, after sorting both
sides by `profile_id`, against the live rows for the same ids.  Returns
`(changesExist, changedProfileIds)`.  Note the source returns
`(True, None)` — no ids — when the two shapes (row counts) differ. -/
def check_for_mp_changes (mp_df : List MpRow) (live_mp : List MpRow) :
    Bool × Option (List String) :=
  let all_new_mp_ids := dedupFirst (mp_df.map (·.profile_id))
  let current_mp_data := live_mp.filter (fun r => all_new_mp_ids.contains r.profile_id)
  let mp_df_sorted := sortMpByProfileId mp_df
  let current_mp_data_sorted := sortMpByProfileId current_mp_data
  if mp_df_sorted.length ≠ current_mp_data_sorted.length then
    (true, none)
  else
    let diff := (mp_df_sorted.zip current_mp_data_sorted).filter
      (fun ab => decide (ab.1 ≠ ab.2))
    if diff.isEmpty then
      (false, none)
    else
      (true, some (dedupFirst (diff.map (fun ab => ab.1.profile_id))))

/-- `MigrateStagingToLive.verify_data` (lines 110-231).  In edit mode
(`edit_mode` truthy, i.e. a non-empty string) the staging tables are read
filtered by `edit_mode_target`; subscripting a `None` target raises
`TypeError`, which the `except SQLAlchemyError` clause does not catch.
Otherwise the whole staging tables are read.  Returns the Python result
(`False` on empty staging or mismatch, `True` otherwise) together with
the updated instance state.  `verify_staged` is the pure tail of the
function after the staging reads: empty-check, cross-table match check,
master-profile change detection. -/
def verify_staged (s : MigState) (cpa : List CpaRow) (mp : List MpRow)
    (topo : List TopoRow) (db : DB) : Bool × MigState :=
  let s1 := { s with all_cpa_data := cpa, all_mp_data := mp, all_topo_data := topo }
  if cpa.isEmpty || mp.isEmpty || topo.isEmpty then (false, s1)
  else if !check_all_tables_have_matching_data cpa mp topo then (false, s1)
  else
    let mpc := check_for_mp_changes mp db.live_mp
    (true, if mpc.1 then { s1 with changed_mp_profiles := mpc.2 } else s1)

/-- The staging rows `verify_data` reads in edit mode, filtered by the
target profiles (and, for CPA and topo, the target date). -/
def editCpaStaged (tgt : List String × Nat) (db : DB) : List CpaRow :=
  db.staging_cpa.filter (fun r => tgt.1.contains r.profile && decide (r.date = tgt.2))

/-- Edit-mode staged master-profile rows (filtered by profile only). -/
def editMpStaged (tgt : List String × Nat) (db : DB) : List MpRow :=
  db.staging_mp.filter (fun r => tgt.1.contains r.profile_id)

/-- Edit-mode staged topo rows. -/
def editTopoStaged (tgt : List String × Nat) (db : DB) : List TopoRow :=
  db.staging_topo.filter (fun r => tgt.1.contains r.profile && decide (r.date = tgt.2))

def verify_data (s : MigState) (db : DB) : Except PyErr (Bool × MigState) :=
  if s.edit_mode ≠ "" then
    match s.edit_mode_target with
    | none => Except.error PyErr.typeError
    | some tgt =>
      Except.ok (verify_staged s (editCpaStaged tgt db) (editMpStaged tgt db)
        (editTopoStaged tgt db) db)
  else
    Except.ok (verify_staged s db.staging_cpa db.staging_mp db.staging_topo db)

/-- Signature of the external area calculator
(`CalculateCPATool(...).calculate_cpa()`): survey unit, profile id, the
new master-profile rows, one historical survey's topo rows, survey date. -/
def CpaCalc : Type := String → String → List MpRow → List TopoRow → Nat → CpaRow

/-- `MigrateStagingToLive.calculate_addition_cpa_for_changed_mps`
(lines 233-272).  For each changed profile, the calculator is invoked
once per distinct historical survey date of that profile's live topo
data, paired with the staged master-profile rows.  When
`changed_mp_profiles` is falsy the source returns the `pd.DataFrame`
class, which the caller's emptiness test skips — modelled as `ok []`.
When profiles are marked but no topo rows exist at all, `pd.concat` of an
empty list raises `ValueError`. -/
def calculate_addition_cpa_for_changed_mps (calcCpa : CpaCalc)
    (changed : Option (List String)) (all_mp_data : List MpRow)
    (live_topo : List TopoRow) : Except PyErr (List CpaRow) :=
  if !isTruthyChanged changed then
    Except.ok []
  else
    let profiles := changed.getD []
    let dfs := profiles.flatMap (fun p =>
      let existing := live_topo.filter (fun r => decide (r.profile = p))
      (dedupFirst (existing.map (·.date))).map (fun d =>
        let profile_topo := existing.filter (fun r => decide (r.date = d))
        calcCpa ((profile_topo.map (·.survey_unit)).headD "") p
          (all_mp_data.filter (fun r => decide (r.profile_id = p))) profile_topo d))
    if dfs.isEmpty then
      Except.error PyErr.valueError
    else
      Except.ok dfs

/-- The list of (profile, date) pairs for which
`calculate_addition_cpa_for_changed_mps` invokes the external calculator. -/
def cpaInvocations (changed : List String) (live_topo : List TopoRow) :
    List (String × Nat) :=
  changed.flatMap (fun p =>
    (dedupFirst ((live_topo.filter (fun r => decide (r.profile = p))).map (·.date))).map
      (fun d => (p, d)))

/-- Upsert of staged CPA rows into the live CPA table
(`update_live_tables` step 1, `ON CONFLICT (survey_unit, date, profile)
DO UPDATE SET area`). -/
def upsertCpa (live : List CpaRow) (rows : List CpaRow) : List CpaRow :=
  rows.foldl (fun acc r =>
    if acc.any (fun x => decide (x.survey_unit = r.survey_unit) &&
        decide (x.date = r.date) && decide (x.profile = r.profile)) then
      acc.map (fun x =>
        if decide (x.survey_unit = r.survey_unit) && decide (x.date = r.date) &&
            decide (x.profile = r.profile) then
          { x with area := r.area }
        else x)
    else acc ++ [r]) live

/-- Upsert of staged topo rows into the live topo table
(`update_live_tables` step 3).  The SQL updates the conflicting row only
when some non-key field differs; replacing it unconditionally yields the
same table state, so the guard is not modelled. -/
def upsertTopo (live : List TopoRow) (rows : List TopoRow) : List TopoRow :=
  rows.foldl (fun acc r =>
    if acc.any (fun x => decide (x.profile = r.profile) && decide (x.date = r.date) &&
        decide (x.chainage = r.chainage)) then
      acc.map (fun x =>
        if decide (x.profile = r.profile) && decide (x.date = r.date) &&
            decide (x.chainage = r.chainage) then
          r
        else x)
    else acc ++ [r]) live

/-- `update_live_tables` step 2: for each changed profile id, delete the
live master-profile rows for that id and insert the staged rows for it
(the `int(x) if pd.notna(x) else None` sequence coercion is the identity
on this model's `Option Int` values). -/
def replaceChangedMps (changed : List String) (all_mp_data : List MpRow)
    (live : List MpRow) : List MpRow :=
  changed.foldl (fun acc p =>
    acc.filter (fun r => !decide (r.profile_id = p)) ++
      all_mp_data.filter (fun r => decide (r.profile_id = p))) live

/-- `update_live_tables` step 4: mark the QC-log rows of every distinct
(survey_unit, date) pair of the staged topo data as pushed to dash. -/
def setPushedToDash (qc : List QcLogRow) (pairs : List (String × Nat)) :
    List QcLogRow :=
  pairs.foldl (fun acc sd =>
    acc.map (fun r =>
      if decide (r.survey_unit = sd.1) && decide (r.completion_date = sd.2) then
        { r with pushed_to_dash := true }
      else r)) qc

/-- `update_live_tables` step 5: clear the staging rows (and staging
history rows) whose profile and date fall in the committed scope. -/
def clearStaging (s : MigState) (db : DB) : DB :=
  let profile_ids := dedupFirst (s.all_topo_data.map (·.profile))
  let dates := dedupFirst (s.all_topo_data.map (·.date))
  let mp_profile_ids := dedupFirst (s.all_mp_data.map (·.profile_id))
  { db with
    staging_cpa := db.staging_cpa.filter
      (fun r => !(profile_ids.contains r.profile && dates.contains r.date))
    staging_cpa_hist := db.staging_cpa_hist.filter
      (fun r => !(profile_ids.contains r.profile && dates.contains r.date))
    staging_topo := db.staging_topo.filter
      (fun r => !(profile_ids.contains r.profile && dates.contains r.date))
    staging_topo_hist := db.staging_topo_hist.filter
      (fun r => !(profile_ids.contains r.profile && dates.contains r.date))
    staging_mp := db.staging_mp.filter
      (fun r => !(mp_profile_ids.contains r.profile_id && dates.contains r.date))
    staging_mp_hist := db.staging_mp_hist.filter
      (fun r => !(mp_profile_ids.contains r.profile_id && dates.contains r.date)) }

/-- `MigrateStagingToLive.update_live_tables` (lines 274-430): one atomic
transaction performing the CPA upsert, the master-profile replacement for
changed profiles, the topo upsert, the QC-log update (skipped in `edit`
mode) and the staging clear.  `qcFail` injects a database error raised by
the QC-log update statement, `otherFail` one raised by any other
statement of the transaction; either aborts and rolls back everything
(the function returns `False` and the state is unchanged).  The returned
`Nat` counts write transactions begun (the caller's lock/store-access
counter). -/
def update_live_tables (s : MigState) (qcFail otherFail : Bool) (db : DB) :
    Bool × DB × Nat :=
  if otherFail || (qcFail && s.edit_mode ≠ "edit") then
    (false, db, 1)
  else
    let db1 := { db with live_cpa := upsertCpa db.live_cpa s.all_cpa_data }
    let db2 :=
      if isTruthyChanged s.changed_mp_profiles then
        { db1 with live_mp :=
            replaceChangedMps (s.changed_mp_profiles.getD []) s.all_mp_data db1.live_mp }
      else db1
    let db3 := { db2 with live_topo := upsertTopo db2.live_topo s.all_topo_data }
    let unique_survey_dates := dedupFirst (s.all_topo_data.map (fun r => (r.survey_unit, r.date)))
    let db4 :=
      if s.edit_mode ≠ "edit" then
        { db3 with qc_log := setPushedToDash db3.qc_log unique_survey_dates }
      else db3
    (true, clearStaging s db4, 1)

/-- `MigrateStagingToLive.migrate_data` (lines 20-39): verify, recompute
CPA for changed master profiles, append the fresh values to the staged
CPA set, then update the live tables.  A `TypeError` or `ValueError`
raised inside propagates to the caller. -/
def migrate_data (s : MigState) (calcCpa : CpaCalc) (qcFail otherFail : Bool)
    (db : DB) : Except PyErr (Bool × DB × Nat) :=
  match verify_data s db with
  | Except.error e => Except.error e
  | Except.ok v =>
    if !v.1 then Except.ok (false, db, 0)
    else
      match calculate_addition_cpa_for_changed_mps calcCpa v.2.changed_mp_profiles
          v.2.all_mp_data db.live_topo with
      | Except.error e => Except.error e
      | Except.ok new_cpa =>
        let s2 := { v.2 with all_cpa_data := v.2.all_cpa_data ++ new_cpa }
        Except.ok (update_live_tables s2 qcFail otherFail db)

/-- `save_changes` in `topo_profile_viewer_page.py`, lines 563-585
(master-profile part): before pickling, the sequence column is assigned
from the current array position — in *both* branches: it is added when
absent and reset "to reflect current order" when present.  The numeric
coercions of chainage/elevation are the identity on this model's typed
rows. -/
def save_changes_mp (f : MpFrame) : MpFrame :=
  { rows := f.rows.enum.map (fun ir => { ir.2 with sequence := some (Int.ofNat ir.1) })
    hasSeqCol := true }

/-- The per-profile positional sequence assignment of `updateMpDatabase`
(line 970): `groupby('profile_id').cumcount()` — each row receives the
number of earlier rows with the same profile id. -/
def assignCumcount (rows : List MpRow) : List MpRow :=
  rows.enum.map (fun ir =>
    { ir.2 with sequence := some (Int.ofNat
        ((rows.take ir.1).countP (fun r => decide (r.profile_id = ir.2.profile_id)))) })

/-- The distinct profile ids of a staged master-profile dataframe
(`all_new_mp_data['profile_id'].unique().tolist()`). -/
def mpIds (f : MpFrame) : List String := dedupFirst (f.rows.map (·.profile_id))

/-- The rows `updateMpDatabase` inserts: the staged rows, with the
positional per-profile sequence added when the column is absent. -/
def mpNewRows (f : MpFrame) : List MpRow :=
  if f.hasSeqCol then f.rows else assignCumcount f.rows

/-- The history generation `updateMpDatabase` writes: every live row
whose profile id is staged, stamped with the transaction time and user. -/
def mpBackup (user_name : String) (t : Nat) (f : MpFrame) (live : List MpRow) :
    List MpHistRow :=
  (live.filter (fun r => (mpIds f).contains r.profile_id)).map
    (fun r => { row := r, changed_at := t, user_name := user_name })

/-- The session scope predicate of the CPA and topo pushes:
`survey_unit = :survey_unit AND date = :date`. -/
def scopeCpa (su : String) (d : Nat) (r : CpaRow) : Bool :=
  decide (r.survey_unit = su) && decide (r.date = d)

/-- Scope predicate for topo rows. -/
def scopeTopo (su : String) (d : Nat) (r : TopoRow) : Bool :=
  decide (r.survey_unit = su) && decide (r.date = d)

/-- The history generation `updateCpaDatabase` writes. -/
def cpaBackup (user_name : String) (t : Nat) (su : String) (d : Nat)
    (live : List CpaRow) : List CpaHistRow :=
  (live.filter (scopeCpa su d)).map
    (fun r => { row := r, changed_at := t, user_name := user_name })

/-- The history generation `updateTopoDatabase` writes. -/
def topoBackup (user_name : String) (t : Nat) (su : String) (d : Nat)
    (live : List TopoRow) : List TopoHistRow :=
  (live.filter (scopeTopo su d)).map
    (fun r => { row := r, changed_at := t, user_name := user_name })

/-- `updateMpDatabase` (`topo_profile_viewer_page.py`, lines 954-1007):
inside one transaction under exclusive locks, copy the live
master-profile rows for the staged profile ids into the history table
stamped `(now(), user_name)`, delete them, and insert the staged rows.
`sequence` is derived per profile from the array position only when the
dataframe has no sequence column.  A database error (`fail`) rolls the
transaction back and is swallowed by the `except SQLAlchemyError`
handler, so the state is unchanged. -/
def updateMpDatabase (user_name : String) (t : Nat) (f : MpFrame) (fail : Bool)
    (db : DB) : DB :=
  if fail then db
  else if (mpIds f).isEmpty then db
  else
    { db with
      hist_mp := db.hist_mp ++ mpBackup user_name t f db.live_mp
      live_mp := db.live_mp.filter (fun r => !(mpIds f).contains r.profile_id) ++
        mpNewRows f }

/-- `updateCpaDatabase` (lines 1009-1060): back up the live CPA rows for
the session's (survey_unit, date) into history stamped
`(now(), user_name)`, delete them, insert the staged rows.  The source's
column-count guard cannot fire for data loaded from the temp pickles and
is not modelled. -/
def updateCpaDatabase (user_name : String) (t : Nat) (rows : List CpaRow)
    (su : String) (date : Nat) (fail : Bool) (db : DB) : DB :=
  if fail then db
  else
    { db with
      hist_cpa := db.hist_cpa ++ cpaBackup user_name t su date db.live_cpa
      live_cpa := db.live_cpa.filter (fun r => !scopeCpa su date r) ++ rows }

/-- `updateTopoDatabase` (lines 1062-1144): back up the live topo rows
for the session's (survey_unit, date), delete them, insert the staged
rows.  The per-record NaN repairs (elevation rename, survey_unit / date /
year / month fallbacks) are the identity on this model's complete rows. -/
def updateTopoDatabase (user_name : String) (t : Nat) (rows : List TopoRow)
    (su : String) (date : Nat) (fail : Bool) (db : DB) : DB :=
  if fail then db
  else if rows.isEmpty then db
  else
    { db with
      hist_topo := db.hist_topo ++ topoBackup user_name t su date db.live_topo
      live_topo := db.live_topo.filter (fun r => !scopeTopo su date r) ++ rows }

/-- Lookup of a dynamically named QC-log column. -/
def getField (r : QcLogRow) (f : String) : String :=
  ((r.fields.filter (fun kv => decide (kv.1 = f))).map (·.2)).headD ""

/-- Update of a dynamically named QC-log column. -/
def setField (r : QcLogRow) (f v : String) : QcLogRow :=
  { r with fields := r.fields.map (fun kv => if decide (kv.1 = f) then (kv.1, v) else kv) }

/-- `updateQClogDatabase` (lines 1146-1219): for each of the three check
categories with no remaining flagged profile, set the category to
`Resolved` (if it was an `Issue`) or `Pass`, with an automated comment.
Runs on its own connection after the table pushes; a database error
(`fail`) is caught and logged, leaving the QC log unchanged. -/
def qcLogReconcile (su : String) (date : Nat) (profile_issues : Bool)
    (flagged : List (String × String)) (fail : Bool)
    (qc_log : List QcLogRow) : List QcLogRow :=
  if fail then qc_log
  else if !profile_issues then qc_log
  else
    let all_excessive := flagged.filter (fun kv => decide (kv.2 = "Excessive Over Spacing"))
    let all_landward := flagged.filter
      (fun kv => decide (kv.2 = "Survey Does Not Reach Master Profile Landward Limit"))
    let all_seaward := flagged.filter
      (fun kv => decide (kv.2 = "Survey Does Not Reach Seaward Limit"))
    let fieldsToUpdate :=
      (if all_excessive.isEmpty then
        [("checks_pl_point_spacing", "checks_pl_point_spacing_c")] else []) ++
      (if all_landward.isEmpty then
        [("checks_pl_profile_start_position", "checks_pl_profile_start_position_c")] else []) ++
      (if all_seaward.isEmpty then
        [("checks_pl_seaward_limit", "checks_pl_seaward_limit_c")] else [])
    fieldsToUpdate.foldl (fun acc fc =>
      let hit := acc.filter
        (fun r => decide (r.survey_unit = su) && decide (r.completion_date = date))
      let existing := (hit.map (fun r => getField r fc.1)).headD ""
      acc.map (fun r =>
        if decide (r.survey_unit = su) && decide (r.completion_date = date) then
          if decide (existing = "Issue") then
            setField (setField r fc.1 "Resolved") fc.2 "Fixed by Profile Viewer Tool"
          else
            setField (setField r fc.1 "Pass") fc.2 "Reviewed by Profile Viewer Tool"
        else r)) qc_log

/-- The database effect of `updateQClogDatabase`: only the QC log
changes. -/
def updateQClogDatabase (su : String) (date : Nat) (profile_issues : Bool)
    (flagged : List (String × String)) (fail : Bool) (db : DB) : DB :=
  { db with qc_log := qcLogReconcile su date profile_issues flagged fail db.qc_log }

/-- `end_session_and_push` (lines 748-834): push the temp-file staging
to the live tables — the temp directories are visited in the order topo
(`New_Profile_Data`), master profiles (`New_MP_Data`), CPA
(`Calculated_CPA_Values`), each update on its own connection and in its
own transaction (so each observes its own `now()`: `t`, `t + 1`,
`t + 2`) — then clean the temp files and reconcile the QC log on a fresh
connection.  A directory with no files is skipped.  Each update swallows
its own database error, so a failure of one table's push does not stop
the others. -/
def end_session_and_push (user_name : String) (t : Nat) (su : String) (date : Nat)
    (tempTopo : List TopoRow) (tempMp : MpFrame) (tempCpa : List CpaRow)
    (profile_issues : Bool) (flagged : List (String × String))
    (failTopo failMp failCpa failQc : Bool) (db : DB) : DB :=
  let db1 := if tempTopo.isEmpty then db
    else updateTopoDatabase user_name t tempTopo su date failTopo db
  let db2 := if tempMp.rows.isEmpty then db1
    else updateMpDatabase user_name (t + 1) tempMp failMp db1
  let db3 := if tempCpa.isEmpty then db2
    else updateCpaDatabase user_name (t + 2) tempCpa su date failCpa db2
  updateQClogDatabase su date profile_issues flagged failQc db3

/-- Restore order of `undoMpDatabase`: `ORDER BY sequence ASC` with SQL
null ordering (nulls last). -/
def seqLe (a b : MpHistRow) : Bool :=
  match a.row.sequence, b.row.sequence with
  | some x, some y => decide (x ≤ y)
  | some _, none => true
  | none, some _ => false
  | none, none => true

/-- `undoMpDatabase` (lines 1221-1298): find the latest `changed_at` in
the master-profile history for the acting user; if none, report nothing
to undo.  Otherwise delete the live rows for the profile ids of that
history group, re-insert the history rows (ordered by sequence,
preserving the stored sequence verbatim), and delete the consumed
history rows. -/
def undoMpDatabase (user_name : String) (fail : Bool) (db : DB) : DB × UndoOutcome :=
  if fail then (db, UndoOutcome.dbError)
  else
    match ((db.hist_mp.filter (fun r => decide (r.user_name = user_name))).map
        (·.changed_at)).max? with
    | none => (db, UndoOutcome.nothingToUndo)
    | some last_change =>
      let grp := db.hist_mp.filter
        (fun r => decide (r.changed_at = last_change) && decide (r.user_name = user_name))
      let profile_ids := dedupFirst (grp.map (·.row.profile_id))
      if profile_ids.isEmpty then (db, UndoOutcome.noRows)
      else
        let sel := db.hist_mp.filter (fun r => profile_ids.contains r.row.profile_id &&
          decide (r.changed_at = last_change) && decide (r.user_name = user_name))
        let restored := (sortByLe seqLe sel).map (·.row)
        ({ db with
            live_mp := db.live_mp.filter
                (fun r => !profile_ids.contains r.profile_id) ++ restored
            hist_mp := db.hist_mp.filter
                (fun r => !(profile_ids.contains r.row.profile_id &&
                  decide (r.changed_at = last_change) &&
                  decide (r.user_name = user_name))) },
         UndoOutcome.restored)

/-- `undoCpaDatabase` (lines 1300-1379): find the latest `changed_at` in
the CPA history for the acting user; for each distinct
(survey_unit, date) of that group, delete the current live rows, restore
the history rows and delete the consumed history rows. -/
def undoCpaDatabase (user_name : String) (fail : Bool) (db : DB) : DB × UndoOutcome :=
  if fail then (db, UndoOutcome.dbError)
  else
    match ((db.hist_cpa.filter (fun r => decide (r.user_name = user_name))).map
        (·.changed_at)).max? with
    | none => (db, UndoOutcome.nothingToUndo)
    | some last_change =>
      let grp := db.hist_cpa.filter
        (fun r => decide (r.changed_at = last_change) && decide (r.user_name = user_name))
      let pairs := dedupFirst (grp.map (fun r => (r.row.survey_unit, r.row.date)))
      if pairs.isEmpty then (db, UndoOutcome.noRows)
      else
        let final := pairs.foldl (fun st sd =>
          let resSel := st.2.filter (fun r => scopeCpa sd.1 sd.2 r.row &&
            decide (r.changed_at = last_change) && decide (r.user_name = user_name))
          (st.1.filter (fun r => !scopeCpa sd.1 sd.2 r) ++ resSel.map (·.row),
           st.2.filter (fun r => !(scopeCpa sd.1 sd.2 r.row &&
            decide (r.changed_at = last_change) && decide (r.user_name = user_name)))))
          (db.live_cpa, db.hist_cpa)
        ({ db with live_cpa := final.1, hist_cpa := final.2 }, UndoOutcome.restored)

/-- `undoTopoDatabase` (lines 1381-1455): same shape as the CPA undo,
on the topo table. -/
def undoTopoDatabase (user_name : String) (fail : Bool) (db : DB) : DB × UndoOutcome :=
  if fail then (db, UndoOutcome.dbError)
  else
    match ((db.hist_topo.filter (fun r => decide (r.user_name = user_name))).map
        (·.changed_at)).max? with
    | none => (db, UndoOutcome.nothingToUndo)
    | some last_change =>
      let grp := db.hist_topo.filter
        (fun r => decide (r.changed_at = last_change) && decide (r.user_name = user_name))
      let pairs := dedupFirst (grp.map (fun r => (r.row.survey_unit, r.row.date)))
      if pairs.isEmpty then (db, UndoOutcome.noRows)
      else
        let final := pairs.foldl (fun st sd =>
          let resSel := st.2.filter (fun r => scopeTopo sd.1 sd.2 r.row &&
            decide (r.changed_at = last_change) && decide (r.user_name = user_name))
          (st.1.filter (fun r => !scopeTopo sd.1 sd.2 r) ++ resSel.map (·.row),
           st.2.filter (fun r => !(scopeTopo sd.1 sd.2 r.row &&
            decide (r.changed_at = last_change) && decide (r.user_name = user_name)))))
          (db.live_topo, db.hist_topo)
        ({ db with live_topo := final.1, hist_topo := final.2 }, UndoOutcome.restored)

/-- `undoQcLogFlags` (lines 1457-1518): look up the QC-log row of the
session's (survey_unit, completion_date); if a most-recent `Failed` entry
exists in the issue history for that survey, flip the recorded field back
to `Issue` with its old comment. -/
def undoQcLogFlags (su : String) (date : Nat) (db : DB) : DB :=
  match (db.qc_log.filter (fun r => decide (r.survey_unit = su) &&
      decide (r.completion_date = date))).head? with
  | none => db
  | some q =>
    let cands := db.issue_hist.filter (fun r => decide (r.survey_id = q.survey_id) &&
      decide (r.new_issue_status = "Failed"))
    match (sortByLe (fun a b => decide (b.updated_at ≤ a.updated_at)) cands).head? with
    | none => db
    | some h =>
      { db with qc_log := db.qc_log.map (fun r =>
          if decide (r.survey_id = q.survey_id) then
            setField (setField r h.issue_field "Issue") (h.issue_field ++ "_c")
              h.old_issue_comment
          else r) }

/-- `undo_last_push` (lines 920-946): undo the master-profile, CPA and
topo pushes for the acting user (each in its own transaction, each
swallowing its own database error), then the QC-log flags. -/
def undo_last_push (user_name : String) (su : String) (date : Nat)
    (failMp failCpa failTopo : Bool) (db : DB) :
    DB × (UndoOutcome × UndoOutcome × UndoOutcome) :=
  let r1 := undoMpDatabase user_name failMp db
  let r2 := undoCpaDatabase user_name failCpa r1.1
  let r3 := undoTopoDatabase user_name failTopo r2.1
  let db4 := undoQcLogFlags su date r3.1
  (db4, (r1.2, r2.2, r3.2))

/-! Concrete sample data used by the closed counterexamples and by the
witnesses of the hypothesised theorems. -/

/-- A live master-profile vertex of profile `P`. -/
def mRow1 : MpRow :=
  { profile_id := "P", date := 1, chainage := 0, elevation := 5, sequence := some 0 }

/-- A staged (edited) master-profile vertex of profile `P`. -/
def mRow2 : MpRow :=
  { profile_id := "P", date := 2, chainage := 0, elevation := 6, sequence := some 0 }

/-- A staged master-profile vertex of a brand-new profile `Q`. -/
def mRowQ : MpRow :=
  { profile_id := "Q", date := 2, chainage := 0, elevation := 6, sequence := some 0 }

/-- A live CPA row of survey unit `S`, date 1. -/
def cRow1 : CpaRow := { survey_unit := "S", date := 1, profile := "P", area := 10 }

/-- A staged CPA row replacing `cRow1`. -/
def cRow2 : CpaRow := { survey_unit := "S", date := 1, profile := "P", area := 20 }

/-- A live topo row of survey unit `S`, date 1. -/
def tRow1 : TopoRow :=
  { easting := 0, northing := 0, elevation_od := 3, chainage := 0, fc := "x",
    profile := "P", reg_id := "P", survey_unit := "S", date := 1, year := 2024,
    month := 1 }

/-- A staged topo row replacing `tRow1`. -/
def tRow2 : TopoRow := { tRow1 with easting := 9 }

/-- A database with one live row per table and empty history and staging. -/
def db0Ex : DB :=
  { live_cpa := [cRow1], live_mp := [mRow1], live_topo := [tRow1],
    hist_cpa := [], hist_mp := [], hist_topo := [],
    staging_cpa := [], staging_mp := [], staging_topo := [],
    staging_cpa_hist := [], staging_mp_hist := [], staging_topo_hist := [],
    qc_log := [], issue_hist := [] }

/-- A staged master-profile dataframe editing profile `P`. -/
def fEx : MpFrame := { rows := [mRow2], hasSeqCol := true }

/-- A staged master-profile dataframe introducing the new profile `Q`. -/
def fExQ : MpFrame := { rows := [mRowQ], hasSeqCol := true }

/-- `db0Ex` with no live master-profile rows (profile `Q` does not exist
yet). -/
def db0ExNoMp : DB := { db0Ex with live_mp := [] }

/-- `db0Ex` with two master-profile history generations for user `u`
(timestamps 1 and 2). -/
def dbTwoGenEx : DB :=
  { db0Ex with hist_mp :=
      [{ row := mRow1, changed_at := 1, user_name := "u" },
       { row := mRow2, changed_at := 2, user_name := "u" }] }

/-- `db0Ex` with a staged changeset in the staging schema whose
master-profile row count (2) differs from the live row count (1) for
profile `P`. -/
def dbStgEx : DB :=
  { db0Ex with
    staging_cpa := [{ survey_unit := "S", date := 2, profile := "P", area := 30 }]
    staging_mp := [mRow2, { mRow2 with chainage := 5 }]
    staging_topo := [{ tRow1 with date := 2 }] }

/-- A trivial stand-in for the external area calculator (its outputs are
irrelevant to the properties below unless stated otherwise). -/
def calcStub : CpaCalc :=
  fun _ _ _ _ _ => { survey_unit := "", date := 0, profile := "", area := 0 }

/-- A staged master-profile dataframe that already carries sequence
values 5 and 3. -/
def fSeqEx : MpFrame :=
  { rows := [{ mRow1 with sequence := some 5 },
             { mRow1 with chainage := 1, sequence := some 3 }]
    hasSeqCol := true }

/-- A verified `MigrateStagingToLive` state ready for
`update_live_tables` (edit mode `qc`, one staged row per table). -/
def sC8Ex : MigState :=
  { edit_mode := "qc", edit_mode_target := some (["P"], 2),
    all_cpa_data := [cRow2], all_mp_data := [mRow2], all_topo_data := [tRow2],
    changed_mp_profiles := some [] }

/-! General helper lemmas about the list combinators used by the model. -/

theorem contains_eq_decide_mem {α : Type} [DecidableEq α] (l : List α) (a : α) :
    l.contains a = decide (a ∈ l) := by
  simp [List.contains]

theorem mem_dedupFirstAux {α : Type} [DecidableEq α] {a : α} :
    ∀ {l seen : List α}, a ∈ dedupFirstAux seen l ↔ a ∈ l ∧ a ∉ seen := by
  intro l
  induction l with
  | nil => intro seen; simp [dedupFirstAux]
  | cons b l ih =>
    intro seen
    rw [dedupFirstAux]
    by_cases hb : seen.contains b
    · rw [if_pos hb, ih]
      rw [contains_eq_decide_mem, decide_eq_true_eq] at hb
      by_cases hab : a = b
      · subst hab; simp [hb]
      · simp [hab]
    · rw [if_neg hb]
      rw [contains_eq_decide_mem] at hb
      simp only [decide_eq_true_eq] at hb
      by_cases hab : a = b
      · subst hab; simp [hb]
      · simp only [List.mem_cons, hab, false_or, ih]
        try simp [hab]

theorem mem_dedupFirst {α : Type} [DecidableEq α] {a : α} {l : List α} :
    a ∈ dedupFirst l ↔ a ∈ l := by
  rw [dedupFirst, mem_dedupFirstAux]
  simp

theorem nodup_dedupFirstAux {α : Type} [DecidableEq α] :
    ∀ {l seen : List α}, (dedupFirstAux seen l).Nodup := by
  intro l
  induction l with
  | nil => intro seen; simp [dedupFirstAux]
  | cons b l ih =>
    intro seen
    rw [dedupFirstAux]
    by_cases hb : seen.contains b
    · rw [if_pos hb]; exact ih
    · rw [if_neg hb]
      refine List.nodup_cons.mpr ⟨fun hmem => ?_, ih⟩
      have := mem_dedupFirstAux.mp hmem
      simp at this

theorem nodup_dedupFirst {α : Type} [DecidableEq α] (l : List α) :
    (dedupFirst l).Nodup := nodup_dedupFirstAux

theorem dedupFirstAux_eq_nil {α : Type} [DecidableEq α] :
    ∀ {l seen : List α}, (∀ b ∈ l, b ∈ seen) → dedupFirstAux seen l = [] := by
  intro l
  induction l with
  | nil => intro seen _; rfl
  | cons b l ih =>
    intro seen hall
    rw [dedupFirstAux, if_pos]
    · exact ih (fun x hx => hall x (List.mem_cons_of_mem _ hx))
    · rw [contains_eq_decide_mem, decide_eq_true_eq]
      exact hall b (by simp)

theorem dedupFirst_eq_singleton {α : Type} [DecidableEq α] {l : List α} {a : α}
    (hne : l ≠ []) (hall : ∀ b ∈ l, b = a) : dedupFirst l = [a] := by
  cases l with
  | nil => exact absurd rfl hne
  | cons b l' =>
    have hb : b = a := hall b (by simp)
    subst hb
    rw [dedupFirst, dedupFirstAux]
    rw [if_neg (by simp)]
    rw [dedupFirstAux_eq_nil (fun x hx => by simp [hall x (List.mem_cons_of_mem _ hx)])]

theorem sortByLe_perm {α : Type} (le : α → α → Bool) (l : List α) :
    (sortByLe le l).Perm l := by
  induction l with
  | nil => exact List.Perm.refl _
  | cons b l ih =>
    rw [sortByLe, List.foldr_cons]
    have hins : ∀ (a : α) (m : List α), (insertLe le a m).Perm (a :: m) := by
      intro a m
      induction m with
      | nil => exact List.Perm.refl _
      | cons c m ihm =>
        rw [insertLe]
        by_cases h : le a c
        · rw [if_pos h]
        · rw [if_neg h]
          exact (List.Perm.cons c ihm).trans (List.Perm.swap a c m)
    exact (hins b (sortByLe le l)).trans (List.Perm.cons b ih)

theorem foldl_max_const {t : Nat} : ∀ {l : List Nat}, (∀ x ∈ l, x = t) →
    l.foldl max t = t
  | [], _ => rfl
  | c :: l', hall => by
    have hc : c = t := hall c (by simp)
    subst hc
    rw [List.foldl_cons, Nat.max_self]
    exact foldl_max_const (fun x hx => hall x (by simp [hx]))

theorem max?_of_const {l : List Nat} {t : Nat} (hne : l ≠ [])
    (hall : ∀ x ∈ l, x = t) : l.max? = some t := by
  cases l with
  | nil => exact absurd rfl hne
  | cons b l' =>
    have hb : b = t := hall b (by simp)
    subst hb
    rw [List.max?_cons']
    rw [foldl_max_const (fun x hx => hall x (by simp [hx]))]

/-- Master decomposition of `end_session_and_push`: each table's update
is governed only by its own staged data and its own failure flag, and a
successful table update appends exactly one stamped backup generation to
that table's history. -/
theorem end_session_and_push_eq (user_name : String) (t : Nat) (su : String)
    (d : Nat) (tempTopo : List TopoRow) (f : MpFrame) (tempCpa : List CpaRow)
    (pi : Bool) (flagged : List (String × String)) (ft fm fc fq : Bool) (db : DB) :
    end_session_and_push user_name t su d tempTopo f tempCpa pi flagged
      ft fm fc fq db =
    { db with
      hist_topo :=
        if tempTopo.isEmpty || ft then db.hist_topo
        else db.hist_topo ++ topoBackup user_name t su d db.live_topo
      live_topo :=
        if tempTopo.isEmpty || ft then db.live_topo
        else db.live_topo.filter (fun r => !scopeTopo su d r) ++ tempTopo
      hist_mp :=
        if f.rows.isEmpty || fm || (mpIds f).isEmpty then db.hist_mp
        else db.hist_mp ++ mpBackup user_name (t + 1) f db.live_mp
      live_mp :=
        if f.rows.isEmpty || fm || (mpIds f).isEmpty then db.live_mp
        else db.live_mp.filter (fun r => !(mpIds f).contains r.profile_id) ++
          mpNewRows f
      hist_cpa :=
        if tempCpa.isEmpty || fc then db.hist_cpa
        else db.hist_cpa ++ cpaBackup user_name (t + 2) su d db.live_cpa
      live_cpa :=
        if tempCpa.isEmpty || fc then db.live_cpa
        else db.live_cpa.filter (fun r => !scopeCpa su d r) ++ tempCpa
      qc_log := qcLogReconcile su d pi flagged fq db.qc_log } := by
  by_cases hT : tempTopo.isEmpty <;> by_cases hR : f.rows.isEmpty <;>
    by_cases hMi : (mpIds f).isEmpty <;> by_cases hC : tempCpa.isEmpty <;>
    cases ft <;> cases fm <;> cases fc <;>
    simp [end_session_and_push, updateTopoDatabase, updateMpDatabase,
      updateCpaDatabase, updateQClogDatabase, hT, hR, hMi, hC]

/-- Membership form of `mpBackup`. -/
theorem mem_mpBackup {user_name : String} {t : Nat} {f : MpFrame}
    {live : List MpRow} {r : MpHistRow} (h : r ∈ mpBackup user_name t f live) :
    r.changed_at = t ∧ r.user_name = user_name := by
  rw [mpBackup] at h
  obtain ⟨x, _, rfl⟩ := List.mem_map.mp h
  exact ⟨rfl, rfl⟩

/-- Membership form of `cpaBackup`. -/
theorem mem_cpaBackup {user_name : String} {t : Nat} {su : String} {d : Nat}
    {live : List CpaRow} {r : CpaHistRow} (h : r ∈ cpaBackup user_name t su d live) :
    r.changed_at = t ∧ r.user_name = user_name := by
  rw [cpaBackup] at h
  obtain ⟨x, _, rfl⟩ := List.mem_map.mp h
  exact ⟨rfl, rfl⟩

/-- Membership form of `topoBackup`. -/
theorem mem_topoBackup {user_name : String} {t : Nat} {su : String} {d : Nat}
    {live : List TopoRow} {r : TopoHistRow} (h : r ∈ topoBackup user_name t su d live) :
    r.changed_at = t ∧ r.user_name = user_name := by
  rw [topoBackup] at h
  obtain ⟨x, _, rfl⟩ := List.mem_map.mp h
  exact ⟨rfl, rfl⟩

/-- C10: every `MigrateStagingToLive` instance constructed with the
default arguments (`edit_mode = 'qc'`, `edit_mode_target = None`) — as
`push_to_dash` constructs it — takes the edit-mode branch of
`verify_data` (the non-empty mode string is truthy, so the unfiltered
whole-staging queries cannot be reached), subscripts the `None`
`edit_mode_target`, and raises a `TypeError` that neither `verify_data`
nor `migrate_data` catches, instead of returning a verification result. -/
theorem c10_default_construction_raises_typeerror :
    ∀ (db : DB) (calcCpa : CpaCalc) (qcFail otherFail : Bool),
      verify_data (initMigState "qc" none) db = Except.error PyErr.typeError ∧
      migrate_data (initMigState "qc" none) calcCpa qcFail otherFail db =
        Except.error PyErr.typeError := by
  intro db calcCpa qcFail otherFail
  exact ⟨rfl, rfl⟩

/-- C5 (evaluation at the failing input): for a staged master-profile
set whose row count (2) differs from the live rows (1) for the same
profile, `check_for_mp_changes` returns `(True, None)` — changes are
detected but *no* profile id is recorded — and `migrate_data` then
reports success while leaving the live master-profile table unchanged
and still clearing the staged master-profile rows: the staged edit is
silently dropped. -/
theorem c5_shape_change_drops_master_profile_update :
    check_for_mp_changes dbStgEx.staging_mp dbStgEx.live_mp = (true, none) ∧
    dbStgEx.staging_mp ≠ [] ∧
    dbStgEx.staging_mp ≠ dbStgEx.live_mp ∧
    (migrate_data (initMigState "q" (some (["P"], 2))) calcStub false false
        dbStgEx).map (fun r => (r.1, r.2.1.live_mp, r.2.1.staging_mp)) =
      Except.ok (true, dbStgEx.live_mp, []) := by decide

/-- C9 (counterexample): a staged master-profile dataframe that already
carries sequence values 5 and 3 does not keep them through the staging
step — `save_changes` reassigns the sequence column from the current
array position in both of its branches. -/
theorem c9_counterexample_sequence_reassigned :
    fSeqEx.hasSeqCol = true ∧
    (save_changes_mp fSeqEx).rows.map (fun r => r.sequence) ≠
      fSeqEx.rows.map (fun r => r.sequence) := by decide

/-- C9 (amended): the staging step (`save_changes`) always reassigns the
sequence field from the current array position, whether or not one is
present; the commit step (`updateMpDatabase`) derives a per-profile
positional sequence only when the column is absent and otherwise inserts
the staged sequence values unchanged. -/
theorem c9_amended_sequence_policy (f : MpFrame) (user_name : String) (t : Nat)
    (db : DB) :
    ((save_changes_mp f).rows.map (fun r => r.sequence) =
      (List.range f.rows.length).map (fun i => some (Int.ofNat i))) ∧
    (f.hasSeqCol = true → (mpIds f).isEmpty = false →
      (updateMpDatabase user_name t f false db).live_mp =
        db.live_mp.filter (fun r => !(mpIds f).contains r.profile_id) ++ f.rows) ∧
    (f.hasSeqCol = false → (mpIds f).isEmpty = false →
      (updateMpDatabase user_name t f false db).live_mp =
        db.live_mp.filter (fun r => !(mpIds f).contains r.profile_id) ++
          assignCumcount f.rows) := by
  refine ⟨?_, ?_, ?_⟩
  · rw [save_changes_mp, List.map_map]
    have hcomp : ((fun r : MpRow => r.sequence) ∘
        fun ir : Nat × MpRow => { ir.2 with sequence := some (Int.ofNat ir.1) }) =
        (fun i : Nat => some (Int.ofNat i)) ∘ Prod.fst := rfl
    rw [hcomp, ← List.map_map, List.enum_map_fst]
  · intro hs hne
    simp [updateMpDatabase, hne, mpNewRows, hs]
  · intro hs hne
    simp [updateMpDatabase, hne, mpNewRows, hs]

/-- Witness for the amended C9 theorem at a concrete frame. -/
theorem c9_amended_witness :
    (updateMpDatabase "u" 0 fExQ false db0Ex).live_mp =
      db0Ex.live_mp.filter (fun r => !(mpIds fExQ).contains r.profile_id) ++
        fExQ.rows :=
  (c9_amended_sequence_policy fExQ "u" 0 db0Ex).2.1 (by decide) (by decide)

/-- C8 (counterexample): in the staging-migration path the QC-log update
runs *inside* the commit transaction (`update_live_tables`, step 4), so a
failure of that statement aborts the whole commit: with the same state,
the commit succeeds without the QC-log failure and returns `False` with
everything rolled back when the QC-log statement fails — the QC-log
failure *is* a commit failure there. -/
theorem c8_counterexample_qc_failure_fails_commit :
    (update_live_tables sC8Ex false false db0Ex).1 = true ∧
    update_live_tables sC8Ex true false db0Ex = (false, db0Ex, 1) := by decide

/-- C8 (amended): in the profile-viewer push path the QC-log
reconciliation runs after the three per-table transactions have closed,
and its failure changes none of the live or history tables — the commit
outcome is identical with and without the QC-log failure; in the
staging-migration path, however, the QC-log update executes inside the
single commit transaction, so its failure rolls back the entire commit
and the commit returns failure. -/
theorem c8_amended_qc_failure_isolation (user_name : String) (t : Nat)
    (su : String) (d : Nat) (tempTopo : List TopoRow) (f : MpFrame)
    (tempCpa : List CpaRow) (pi : Bool) (flagged : List (String × String))
    (ft fm fc : Bool) (db : DB) (s : MigState) (otherFail : Bool) :
    ((end_session_and_push user_name t su d tempTopo f tempCpa pi flagged
        ft fm fc true db).live_cpa =
      (end_session_and_push user_name t su d tempTopo f tempCpa pi flagged
        ft fm fc false db).live_cpa ∧
     (end_session_and_push user_name t su d tempTopo f tempCpa pi flagged
        ft fm fc true db).live_mp =
      (end_session_and_push user_name t su d tempTopo f tempCpa pi flagged
        ft fm fc false db).live_mp ∧
     (end_session_and_push user_name t su d tempTopo f tempCpa pi flagged
        ft fm fc true db).live_topo =
      (end_session_and_push user_name t su d tempTopo f tempCpa pi flagged
        ft fm fc false db).live_topo ∧
     (end_session_and_push user_name t su d tempTopo f tempCpa pi flagged
        ft fm fc true db).hist_cpa =
      (end_session_and_push user_name t su d tempTopo f tempCpa pi flagged
        ft fm fc false db).hist_cpa ∧
     (end_session_and_push user_name t su d tempTopo f tempCpa pi flagged
        ft fm fc true db).hist_mp =
      (end_session_and_push user_name t su d tempTopo f tempCpa pi flagged
        ft fm fc false db).hist_mp ∧
     (end_session_and_push user_name t su d tempTopo f tempCpa pi flagged
        ft fm fc true db).hist_topo =
      (end_session_and_push user_name t su d tempTopo f tempCpa pi flagged
        ft fm fc false db).hist_topo) ∧
    (s.edit_mode ≠ "edit" →
      update_live_tables s true otherFail db = (false, db, 1)) := by
  constructor
  · rw [end_session_and_push_eq, end_session_and_push_eq]
    exact ⟨rfl, rfl, rfl, rfl, rfl, rfl⟩
  · intro hmode
    rw [update_live_tables]
    rw [if_pos]
    simp [hmode]

/-- Witness for the amended C8 theorem: a QC-log failure inside
`update_live_tables` aborts a commit that would otherwise succeed. -/
theorem c8_amended_witness :
    update_live_tables sC8Ex true false db0Ex = (false, db0Ex, 1) :=
  (c8_amended_qc_failure_isolation "u" 0 "S" 1 [] { rows := [], hasSeqCol := true }
    [] false [] false false false db0Ex sC8Ex false).2 (by decide)

/-- C7 (counterexample): in one profile-viewer commit on a database with
one pre-existing live row per table, the master-profile history snapshot
and the CPA history snapshot do *not* carry the same `changed_at` value:
each table's backup runs in its own transaction and observes its own
`now()`. -/
theorem c7_counterexample_distinct_timestamps :
    ¬ (∀ rm ∈ (end_session_and_push "u" 10 "S" 1 [tRow2] fEx [cRow2] false []
          false false false false db0Ex).hist_mp,
       ∀ rc ∈ (end_session_and_push "u" 10 "S" 1 [tRow2] fEx [cRow2] false []
          false false false false db0Ex).hist_cpa,
       rm.changed_at = rc.changed_at) := by decide

/-- C7 (amended): within one commit, each table's history generation is
internally uniform — every snapshot row of one table carries that
table's own transaction timestamp and the acting user — but the three
tables observe three successive per-transaction timestamps
(`t`, `t + 1`, `t + 2`), not one shared value; undo accordingly groups
rows per table by that table's own latest timestamp. -/
theorem c7_amended_per_table_uniform_timestamps (user_name : String) (t : Nat)
    (su : String) (d : Nat) (tempTopo : List TopoRow) (f : MpFrame)
    (tempCpa : List CpaRow) (pi : Bool) (flagged : List (String × String))
    (fq : Bool) (db : DB) :
    ∃ gt gm gc,
      (end_session_and_push user_name t su d tempTopo f tempCpa pi flagged
        false false false fq db).hist_topo = db.hist_topo ++ gt ∧
      (∀ r ∈ gt, r.changed_at = t ∧ r.user_name = user_name) ∧
      (end_session_and_push user_name t su d tempTopo f tempCpa pi flagged
        false false false fq db).hist_mp = db.hist_mp ++ gm ∧
      (∀ r ∈ gm, r.changed_at = t + 1 ∧ r.user_name = user_name) ∧
      (end_session_and_push user_name t su d tempTopo f tempCpa pi flagged
        false false false fq db).hist_cpa = db.hist_cpa ++ gc ∧
      (∀ r ∈ gc, r.changed_at = t + 2 ∧ r.user_name = user_name) := by
  rw [end_session_and_push_eq]
  refine ⟨if tempTopo.isEmpty then [] else topoBackup user_name t su d db.live_topo,
    if f.rows.isEmpty || (mpIds f).isEmpty then []
      else mpBackup user_name (t + 1) f db.live_mp,
    if tempCpa.isEmpty then [] else cpaBackup user_name (t + 2) su d db.live_cpa,
    ?_, ?_, ?_, ?_, ?_, ?_⟩
  · by_cases hT : tempTopo.isEmpty <;> simp [hT]
  · intro r hr
    by_cases hT : tempTopo.isEmpty
    · simp [hT] at hr
    · rw [if_neg hT] at hr
      exact mem_topoBackup hr
  · by_cases hR : f.rows.isEmpty <;> by_cases hMi : (mpIds f).isEmpty <;>
      simp [hR, hMi]
  · intro r hr
    by_cases hR : f.rows.isEmpty
    · simp [hR] at hr
    · by_cases hMi : (mpIds f).isEmpty
      · simp [hR, hMi] at hr
      · simp only [hR, hMi, Bool.or_self, Bool.or_false, if_false,
          Bool.false_eq_true] at hr
        exact mem_mpBackup hr
  · by_cases hC : tempCpa.isEmpty <;> simp [hC]
  · intro r hr
    by_cases hC : tempCpa.isEmpty
    · simp [hC] at hr
    · rw [if_neg hC] at hr
      exact mem_cpaBackup hr

/-- Witness for the amended C7 theorem at a concrete commit. -/
theorem c7_amended_witness :
    ∃ gt gm gc,
      (end_session_and_push "u" 10 "S" 1 [tRow2] fEx [cRow2] false []
        false false false false db0Ex).hist_topo = db0Ex.hist_topo ++ gt ∧
      (∀ r ∈ gt, r.changed_at = 10 ∧ r.user_name = "u") ∧
      (end_session_and_push "u" 10 "S" 1 [tRow2] fEx [cRow2] false []
        false false false false db0Ex).hist_mp = db0Ex.hist_mp ++ gm ∧
      (∀ r ∈ gm, r.changed_at = 10 + 1 ∧ r.user_name = "u") ∧
      (end_session_and_push "u" 10 "S" 1 [tRow2] fEx [cRow2] false []
        false false false false db0Ex).hist_cpa = db0Ex.hist_cpa ++ gc ∧
      (∀ r ∈ gc, r.changed_at = 10 + 2 ∧ r.user_name = "u") :=
  c7_amended_per_table_uniform_timestamps "u" 10 "S" 1 [tRow2] fEx [cRow2]
    false [] false db0Ex

/-- C1 (counterexample): with a database-side failure injected into the
master-profile push only, `end_session_and_push` leaves the commit
half-applied: the CPA and topo tables are updated to the staged values
while the master-profile table keeps its old rows — neither the
"fully updated with one history generation per table" outcome nor the
"everything exactly as before" outcome of the claim holds. -/
theorem c1_counterexample_partial_commit :
    ¬ (((end_session_and_push "u" 10 "S" 1 [tRow2] fEx [cRow2] false []
          false true false false db0Ex).live_cpa = [cRow2] ∧
        (end_session_and_push "u" 10 "S" 1 [tRow2] fEx [cRow2] false []
          false true false false db0Ex).live_mp = [mRow2] ∧
        (end_session_and_push "u" 10 "S" 1 [tRow2] fEx [cRow2] false []
          false true false false db0Ex).live_topo = [tRow2] ∧
        (end_session_and_push "u" 10 "S" 1 [tRow2] fEx [cRow2] false []
          false true false false db0Ex).hist_cpa.length =
          db0Ex.hist_cpa.length + 1 ∧
        (end_session_and_push "u" 10 "S" 1 [tRow2] fEx [cRow2] false []
          false true false false db0Ex).hist_mp.length =
          db0Ex.hist_mp.length + 1 ∧
        (end_session_and_push "u" 10 "S" 1 [tRow2] fEx [cRow2] false []
          false true false false db0Ex).hist_topo.length =
          db0Ex.hist_topo.length + 1) ∨
       end_session_and_push "u" 10 "S" 1 [tRow2] fEx [cRow2] false []
          false true false false db0Ex = db0Ex) := by decide

/-- C1 (amended): atomicity holds per table, not across the changeset:
each table's push either fully applies — live rows for the scope
replaced by the staged rows, history grown by exactly the one stamped
backup generation — or, on that table's failure (or empty staged data),
leaves that table's live and history rows exactly as before; the outcome
for each table depends only on its own staged data and failure flag,
so one table's failure does not prevent or revert the others. -/
theorem c1_amended_per_table_atomicity (user_name : String) (t : Nat)
    (su : String) (d : Nat) (tempTopo : List TopoRow) (f : MpFrame)
    (tempCpa : List CpaRow) (pi : Bool) (flagged : List (String × String))
    (ft fm fc fq : Bool) (db : DB) :
    let db1 := end_session_and_push user_name t su d tempTopo f tempCpa pi
      flagged ft fm fc fq db
    ((ft = true ∨ tempTopo.isEmpty = true) →
      db1.live_topo = db.live_topo ∧ db1.hist_topo = db.hist_topo) ∧
    (ft = false → tempTopo.isEmpty = false →
      db1.live_topo = db.live_topo.filter (fun r => !scopeTopo su d r) ++ tempTopo ∧
      db1.hist_topo = db.hist_topo ++ topoBackup user_name t su d db.live_topo) ∧
    ((fm = true ∨ f.rows.isEmpty = true ∨ (mpIds f).isEmpty = true) →
      db1.live_mp = db.live_mp ∧ db1.hist_mp = db.hist_mp) ∧
    (fm = false → f.rows.isEmpty = false → (mpIds f).isEmpty = false →
      db1.live_mp = db.live_mp.filter (fun r => !(mpIds f).contains r.profile_id) ++
        mpNewRows f ∧
      db1.hist_mp = db.hist_mp ++ mpBackup user_name (t + 1) f db.live_mp) ∧
    ((fc = true ∨ tempCpa.isEmpty = true) →
      db1.live_cpa = db.live_cpa ∧ db1.hist_cpa = db.hist_cpa) ∧
    (fc = false → tempCpa.isEmpty = false →
      db1.live_cpa = db.live_cpa.filter (fun r => !scopeCpa su d r) ++ tempCpa ∧
      db1.hist_cpa = db.hist_cpa ++ cpaBackup user_name (t + 2) su d db.live_cpa) := by
  rw [end_session_and_push_eq]
  refine ⟨?_, ?_, ?_, ?_, ?_, ?_⟩
  · rintro (h | h) <;> exact ⟨by simp [h], by simp [h]⟩
  · intro h1 h2
    exact ⟨by simp [h1, h2], by simp [h1, h2]⟩
  · rintro (h | h | h) <;> exact ⟨by simp [h], by simp [h]⟩
  · intro h1 h2 h3
    exact ⟨by simp [h1, h2, h3], by simp [h1, h2, h3]⟩
  · rintro (h | h) <;> exact ⟨by simp [h], by simp [h]⟩
  · intro h1 h2
    exact ⟨by simp [h1, h2], by simp [h1, h2]⟩

/-- Witness for the amended C1 theorem: the master-profile clauses at a
concrete input — an injected failure leaves the table untouched while,
without it, exactly one history generation is appended. -/
theorem c1_amended_witness :
    ((end_session_and_push "u" 10 "S" 1 [tRow2] fEx [cRow2] false []
        false true false false db0Ex).live_mp = db0Ex.live_mp ∧
     (end_session_and_push "u" 10 "S" 1 [tRow2] fEx [cRow2] false []
        false true false false db0Ex).hist_mp = db0Ex.hist_mp) ∧
    ((end_session_and_push "u" 10 "S" 1 [tRow2] fEx [cRow2] false []
        false false false false db0Ex).live_mp =
      db0Ex.live_mp.filter (fun r => !(mpIds fEx).contains r.profile_id) ++
        mpNewRows fEx ∧
     (end_session_and_push "u" 10 "S" 1 [tRow2] fEx [cRow2] false []
        false false false false db0Ex).hist_mp =
      db0Ex.hist_mp ++ mpBackup "u" 11 fEx db0Ex.live_mp) :=
  ⟨(c1_amended_per_table_atomicity "u" 10 "S" 1 [tRow2] fEx [cRow2] false []
      false true false false db0Ex).2.2.1 (Or.inl rfl),
   (c1_amended_per_table_atomicity "u" 10 "S" 1 [tRow2] fEx [cRow2] false []
      false false false false db0Ex).2.2.2.1 rfl (by decide) (by decide)⟩

/-- C4: when any profile referenced by the staged (edit-mode-filtered)
CPA rows is absent from the staged master-profile rows, verification
returns the failure result, `migrate_data` aborts before the live-update
transaction ever begins — the write-transaction/lock counter stays 0 —
and the database is completely unchanged. -/
theorem c4_inconsistent_aborts_before_lock (s : MigState) (db : DB)
    (tgt : List String × Nat) (calcCpa : CpaCalc) (qcFail otherFail : Bool)
    (hmode : s.edit_mode ≠ "")
    (htgt : s.edit_mode_target = some tgt)
    (hcne : editCpaStaged tgt db ≠ [])
    (hmiss : ∃ p ∈ (editCpaStaged tgt db).map (fun r => r.profile),
      p ∉ (editMpStaged tgt db).map (fun r => r.profile_id)) :
    (∃ s1, verify_data s db = Except.ok (false, s1)) ∧
    migrate_data s calcCpa qcFail otherFail db = Except.ok (false, db, 0) := by
  have h1 : (dedupFirst ((editCpaStaged tgt db).map (fun r => r.profile))).all
      (fun q => (dedupFirst ((editMpStaged tgt db).map
        (fun r => r.profile_id))).contains q) = false := by
    obtain ⟨p, hp, hpn⟩ := hmiss
    rw [List.all_eq_false]
    refine ⟨p, mem_dedupFirst.mpr hp, ?_⟩
    rw [contains_eq_decide_mem]
    simp only [decide_eq_true_eq, mem_dedupFirst]
    exact hpn
  have hchk : check_all_tables_have_matching_data (editCpaStaged tgt db)
      (editMpStaged tgt db) (editTopoStaged tgt db) = false := by
    simp only [check_all_tables_have_matching_data, h1, Bool.false_and]
  have hvs : (verify_staged s (editCpaStaged tgt db) (editMpStaged tgt db)
      (editTopoStaged tgt db) db).1 = false := by
    rw [verify_staged]
    by_cases hm : (editMpStaged tgt db).isEmpty
    · simp [hm]
    · by_cases ht : (editTopoStaged tgt db).isEmpty
      · simp [ht]
      · have hc : (editCpaStaged tgt db).isEmpty = false :=
          List.isEmpty_eq_false.mpr hcne
        simp [hc, hm, ht, hchk]
  have hv0 : verify_data s db = Except.ok (verify_staged s (editCpaStaged tgt db)
      (editMpStaged tgt db) (editTopoStaged tgt db) db) := by
    rw [verify_data, if_pos hmode, htgt]
  have hpair : verify_staged s (editCpaStaged tgt db) (editMpStaged tgt db)
      (editTopoStaged tgt db) db =
      (false, (verify_staged s (editCpaStaged tgt db) (editMpStaged tgt db)
        (editTopoStaged tgt db) db).2) := by
    rw [← hvs]
  have hv : verify_data s db = Except.ok (false,
      (verify_staged s (editCpaStaged tgt db) (editMpStaged tgt db)
        (editTopoStaged tgt db) db).2) := hv0.trans (congrArg Except.ok hpair)
  refine ⟨⟨_, hv⟩, ?_⟩
  rw [migrate_data, hv]
  rfl

/-- Witness for the C4 theorem: a staged CPA row for profile `P` with no
matching staged master-profile row makes the edit-mode migration abort
untouched. -/
theorem c4_witness :
    migrate_data (initMigState "q" (some (["P"], 2))) calcStub false false
      { db0Ex with
        staging_cpa := [{ survey_unit := "S", date := 2, profile := "P", area := 30 }]
        staging_topo := [{ tRow1 with date := 2 }] } =
      Except.ok (false,
        { db0Ex with
          staging_cpa := [{ survey_unit := "S", date := 2, profile := "P", area := 30 }]
          staging_topo := [{ tRow1 with date := 2 }] }, 0) :=
  (c4_inconsistent_aborts_before_lock (initMigState "q" (some (["P"], 2)))
    { db0Ex with
      staging_cpa := [{ survey_unit := "S", date := 2, profile := "P", area := 30 }]
      staging_topo := [{ tRow1 with date := 2 }] }
    (["P"], 2) calcStub false false (by decide) rfl (by decide)
    ⟨"P", by decide, by decide⟩).2

/-- C6: for profile ids marked "changed", the recomputation invokes the
external area calculator exactly once per distinct historical survey
date of each profile's live topo rows — the invocation list is
duplicate-free and covers precisely the (profile, date) pairs present in
the live topo data — pairing each historical survey's points with the
*staged* master-profile rows, and the freshly computed rows are appended
after the originally staged CPA rows (which remain an untouched
prefix). -/
theorem c6_recompute_once_per_profile_and_date (calcCpa : CpaCalc)
    (changed : List String) (all_mp_data : List MpRow) (live_topo : List TopoRow)
    (hnd : changed.Nodup) (hne : changed ≠ [])
    (hdata : ∀ p ∈ changed, ∃ r ∈ live_topo, r.profile = p) :
    ∃ rows,
      calculate_addition_cpa_for_changed_mps calcCpa (some changed) all_mp_data
        live_topo = Except.ok rows ∧
      rows = (cpaInvocations changed live_topo).map (fun pd =>
        let profile_topo := (live_topo.filter
          (fun r => decide (r.profile = pd.1))).filter
            (fun r => decide (r.date = pd.2))
        calcCpa ((profile_topo.map (fun r => r.survey_unit)).headD "") pd.1
          (all_mp_data.filter (fun r => decide (r.profile_id = pd.1)))
          profile_topo pd.2) ∧
      (cpaInvocations changed live_topo).Nodup ∧
      (∀ p d, (p, d) ∈ cpaInvocations changed live_topo ↔
        p ∈ changed ∧ ∃ r ∈ live_topo, r.profile = p ∧ r.date = d) ∧
      (∀ orig : List CpaRow, orig <+: orig ++ rows) := by
  have hmem : ∀ p d, (p, d) ∈ cpaInvocations changed live_topo ↔
      p ∈ changed ∧ ∃ r ∈ live_topo, r.profile = p ∧ r.date = d := by
    intro p d
    rw [cpaInvocations, List.mem_flatMap]
    constructor
    · rintro ⟨q, hq, hpd⟩
      obtain ⟨d', hd', heq⟩ := List.mem_map.mp hpd
      obtain ⟨hq1, hq2⟩ := Prod.mk.injEq .. ▸ heq
      subst hq1
      subst hq2
      refine ⟨hq, ?_⟩
      have := mem_dedupFirst.mp hd'
      obtain ⟨r, hr, hrd⟩ := List.mem_map.mp this
      have hrp := List.mem_filter.mp hr
      exact ⟨r, hrp.1, by simpa using hrp.2, hrd⟩
    · rintro ⟨hp, r, hr, hrp, hrd⟩
      refine ⟨p, hp, List.mem_map.mpr ⟨d, ?_, rfl⟩⟩
      rw [mem_dedupFirst]
      exact List.mem_map.mpr ⟨r, List.mem_filter.mpr ⟨hr, by simp [hrp]⟩, hrd⟩
  have hinv_nodup : (cpaInvocations changed live_topo).Nodup := by
    rw [cpaInvocations, List.nodup_flatMap]
    constructor
    · intro p _
      exact List.Nodup.map (fun d1 d2 h => congrArg Prod.snd h)
        (nodup_dedupFirst _)
    · refine hnd.imp ?_
      intro a b hab x hxa hxb
      obtain ⟨d1, _, h1⟩ := List.mem_map.mp hxa
      obtain ⟨d2, _, h2⟩ := List.mem_map.mp hxb
      apply hab
      exact congrArg Prod.fst (h1.trans h2.symm)
  have hinv_ne : cpaInvocations changed live_topo ≠ [] := by
    obtain ⟨p, hp⟩ : ∃ p, p ∈ changed := by
      cases changed with
      | nil => exact absurd rfl hne
      | cons a l => exact ⟨a, by simp⟩
    obtain ⟨r, hr, hrp⟩ := hdata p hp
    intro hcon
    have hd := (hmem p r.date).mpr ⟨hp, r, hr, hrp, rfl⟩
    rw [hcon] at hd
    exact absurd hd (List.not_mem_nil _)
  have hrows_eq :
      changed.flatMap (fun p =>
        (dedupFirst ((live_topo.filter
          (fun r => decide (r.profile = p))).map (fun r => r.date))).map (fun d =>
          calcCpa ((((live_topo.filter (fun r => decide (r.profile = p))).filter
              (fun r => decide (r.date = d))).map (fun r => r.survey_unit)).headD "")
            p (all_mp_data.filter (fun r => decide (r.profile_id = p)))
            ((live_topo.filter (fun r => decide (r.profile = p))).filter
              (fun r => decide (r.date = d))) d)) =
      (cpaInvocations changed live_topo).map (fun pd =>
        let profile_topo := (live_topo.filter
          (fun r => decide (r.profile = pd.1))).filter
            (fun r => decide (r.date = pd.2))
        calcCpa ((profile_topo.map (fun r => r.survey_unit)).headD "") pd.1
          (all_mp_data.filter (fun r => decide (r.profile_id = pd.1)))
          profile_topo pd.2) := by
    rw [cpaInvocations, List.map_flatMap]
    apply congrArg
    funext p
    rw [List.map_map]
    rfl
  refine ⟨(cpaInvocations changed live_topo).map (fun pd =>
      let profile_topo := (live_topo.filter
        (fun r => decide (r.profile = pd.1))).filter
          (fun r => decide (r.date = pd.2))
      calcCpa ((profile_topo.map (fun r => r.survey_unit)).headD "") pd.1
        (all_mp_data.filter (fun r => decide (r.profile_id = pd.1)))
        profile_topo pd.2),
    ?_, rfl, hinv_nodup, hmem, fun orig => List.prefix_append orig _⟩
  rw [calculate_addition_cpa_for_changed_mps]
  have htr : isTruthyChanged (some changed) = true := by
    simp [isTruthyChanged, hne]
  rw [htr]
  simp only [Bool.not_true, Bool.false_eq_true, if_false, Option.getD_some]
  rw [if_neg (by
    rw [List.isEmpty_eq_true]
    intro hnil
    rw [hrows_eq] at hnil
    exact hinv_ne (List.map_eq_nil_iff.mp hnil))]
  exact congrArg Except.ok hrows_eq

/-- Witness for the C6 theorem at a concrete changed profile with one
historical survey date. -/
theorem c6_witness :
    ∃ rows,
      calculate_addition_cpa_for_changed_mps calcStub (some ["P"]) [mRow2]
        [tRow1] = Except.ok rows ∧
      rows = (cpaInvocations ["P"] [tRow1]).map (fun pd =>
        let profile_topo := (([tRow1] : List TopoRow).filter
          (fun r => decide (r.profile = pd.1))).filter
            (fun r => decide (r.date = pd.2))
        calcStub ((profile_topo.map (fun r => r.survey_unit)).headD "") pd.1
          (([mRow2] : List MpRow).filter (fun r => decide (r.profile_id = pd.1)))
          profile_topo pd.2) ∧
      (cpaInvocations ["P"] [tRow1]).Nodup ∧
      (∀ p d, (p, d) ∈ cpaInvocations ["P"] [tRow1] ↔
        p ∈ ["P"] ∧ ∃ r ∈ [tRow1], r.profile = p ∧ r.date = d) ∧
      (∀ orig : List CpaRow, orig <+: orig ++ rows) :=
  c6_recompute_once_per_profile_and_date calcStub ["P"] [mRow2] [tRow1]
    (by decide) (by decide) (by decide)

/-- An undo finds nothing for a user with no history rows (master
profiles). -/
theorem undoMp_nothing (u : String) (db : DB)
    (h : ∀ r ∈ db.hist_mp, r.user_name ≠ u) :
    undoMpDatabase u false db = (db, UndoOutcome.nothingToUndo) := by
  have hf : db.hist_mp.filter (fun r => decide (r.user_name = u)) = [] :=
    List.filter_eq_nil_iff.mpr (fun r hr => by simp [h r hr])
  rw [undoMpDatabase]
  simp only [Bool.false_eq_true, if_false, hf, List.map_nil, List.max?_nil]

/-- An undo finds nothing for a user with no history rows (CPA). -/
theorem undoCpa_nothing (u : String) (db : DB)
    (h : ∀ r ∈ db.hist_cpa, r.user_name ≠ u) :
    undoCpaDatabase u false db = (db, UndoOutcome.nothingToUndo) := by
  have hf : db.hist_cpa.filter (fun r => decide (r.user_name = u)) = [] :=
    List.filter_eq_nil_iff.mpr (fun r hr => by simp [h r hr])
  rw [undoCpaDatabase]
  simp only [Bool.false_eq_true, if_false, hf, List.map_nil, List.max?_nil]

/-- An undo finds nothing for a user with no history rows (topo). -/
theorem undoTopo_nothing (u : String) (db : DB)
    (h : ∀ r ∈ db.hist_topo, r.user_name ≠ u) :
    undoTopoDatabase u false db = (db, UndoOutcome.nothingToUndo) := by
  have hf : db.hist_topo.filter (fun r => decide (r.user_name = u)) = [] :=
    List.filter_eq_nil_iff.mpr (fun r hr => by simp [h r hr])
  rw [undoTopoDatabase]
  simp only [Bool.false_eq_true, if_false, hf, List.map_nil, List.max?_nil]

/-- The master-profile undo touches only the master-profile tables. -/
theorem undoMp_frame (u : String) (b : Bool) (db : DB) :
    (undoMpDatabase u b db).1.live_cpa = db.live_cpa ∧
    (undoMpDatabase u b db).1.live_topo = db.live_topo ∧
    (undoMpDatabase u b db).1.hist_cpa = db.hist_cpa ∧
    (undoMpDatabase u b db).1.hist_topo = db.hist_topo ∧
    (undoMpDatabase u b db).1.qc_log = db.qc_log := by
  unfold undoMpDatabase
  try dsimp only
  repeat' split <;> try rfl
  all_goals simp

/-- The CPA undo touches only the CPA tables. -/
theorem undoCpa_frame (u : String) (b : Bool) (db : DB) :
    (undoCpaDatabase u b db).1.live_mp = db.live_mp ∧
    (undoCpaDatabase u b db).1.live_topo = db.live_topo ∧
    (undoCpaDatabase u b db).1.hist_mp = db.hist_mp ∧
    (undoCpaDatabase u b db).1.hist_topo = db.hist_topo ∧
    (undoCpaDatabase u b db).1.qc_log = db.qc_log := by
  unfold undoCpaDatabase
  try dsimp only
  repeat' split <;> try rfl
  all_goals simp

/-- The topo undo touches only the topo tables. -/
theorem undoTopo_frame (u : String) (b : Bool) (db : DB) :
    (undoTopoDatabase u b db).1.live_mp = db.live_mp ∧
    (undoTopoDatabase u b db).1.live_cpa = db.live_cpa ∧
    (undoTopoDatabase u b db).1.hist_mp = db.hist_mp ∧
    (undoTopoDatabase u b db).1.hist_cpa = db.hist_cpa ∧
    (undoTopoDatabase u b db).1.qc_log = db.qc_log := by
  unfold undoTopoDatabase
  try dsimp only
  repeat' split <;> try rfl
  all_goals simp

/-- The QC-log flag undo touches only the QC log. -/
theorem undoQcLogFlags_frame (su : String) (d : Nat) (db : DB) :
    (undoQcLogFlags su d db).live_cpa = db.live_cpa ∧
    (undoQcLogFlags su d db).live_mp = db.live_mp ∧
    (undoQcLogFlags su d db).live_topo = db.live_topo ∧
    (undoQcLogFlags su d db).hist_cpa = db.hist_cpa ∧
    (undoQcLogFlags su d db).hist_mp = db.hist_mp ∧
    (undoQcLogFlags su d db).hist_topo = db.hist_topo := by
  unfold undoQcLogFlags
  try dsimp only
  repeat' split <;> try rfl
  all_goals simp

/-- Every row `updateMpDatabase` inserts belongs to a staged profile
id. -/
theorem mem_mpNewRows_profile {f : MpFrame} {r : MpRow}
    (hr : r ∈ mpNewRows f) : r.profile_id ∈ mpIds f := by
  have hmap : (mpNewRows f).map (fun x => x.profile_id) =
      f.rows.map (fun x => x.profile_id) := by
    rw [mpNewRows]
    by_cases hs : f.hasSeqCol
    · rw [if_pos hs]
    · rw [if_neg hs, assignCumcount, List.map_map]
      have hcomp : ((fun x : MpRow => x.profile_id) ∘
          fun ir : Nat × MpRow =>
            { ir.2 with sequence := some (Int.ofNat
                ((f.rows.take ir.1).countP
                  (fun q => decide (q.profile_id = ir.2.profile_id)))) }) =
          (fun x : MpRow => x.profile_id) ∘ Prod.snd := rfl
      rw [hcomp, ← List.map_map, List.enum_map_snd]
  rw [mpIds, mem_dedupFirst, ← hmap]
  exact List.mem_map.mpr ⟨r, hr, rfl⟩

/-- Master-profile undo after a commit: when the user's prior history is
empty, every staged profile id has at least one pre-commit live row, and
the database carries the committed master-profile state, the undo
restores the live table to a permutation of the pre-commit rows
(sequence and all other fields verbatim) and deletes exactly the
consumed backup generation. -/
theorem undoMp_generation (u : String) (t : Nat) (f : MpFrame)
    (live0 : List MpRow) (hist0 : List MpHistRow) (db' : DB)
    (hu : ∀ r ∈ hist0, r.user_name ≠ u)
    (hids : (mpIds f).isEmpty = false)
    (hpre : ∀ p ∈ mpIds f, ∃ r ∈ live0, r.profile_id = p)
    (hL : db'.live_mp =
      live0.filter (fun r => !(mpIds f).contains r.profile_id) ++ mpNewRows f)
    (hH : db'.hist_mp = hist0 ++ mpBackup u t f live0) :
    ∃ L, undoMpDatabase u false db' =
      ({ db' with live_mp := L, hist_mp := hist0 }, UndoOutcome.restored) ∧
      L.Perm live0 := by
  have hbu : ∀ r ∈ mpBackup u t f live0, r.user_name = u :=
    fun r hr => (mem_mpBackup hr).2
  have hbt : ∀ r ∈ mpBackup u t f live0, r.changed_at = t :=
    fun r hr => (mem_mpBackup hr).1
  have hids_ne : mpIds f ≠ [] := by
    intro hc
    rw [hc] at hids
    simp at hids
  obtain ⟨p0, hp0⟩ : ∃ p, p ∈ mpIds f := by
    cases hmp : mpIds f with
    | nil => exact absurd hmp hids_ne
    | cons a l => exact ⟨a, by simp⟩
  obtain ⟨r0, hr0, hr0p⟩ := hpre p0 hp0
  have hr0pres : r0 ∈ live0.filter (fun r => (mpIds f).contains r.profile_id) :=
    List.mem_filter.mpr ⟨hr0, by rw [contains_eq_decide_mem]; simp [hr0p, hp0]⟩
  have hbackup_ne : mpBackup u t f live0 ≠ [] := by
    intro hc
    have : ({ row := r0, changed_at := t, user_name := u } : MpHistRow) ∈
        mpBackup u t f live0 :=
      List.mem_map.mpr ⟨r0, hr0pres, rfl⟩
    rw [hc] at this
    exact absurd this (List.not_mem_nil _)
  have hfilu : db'.hist_mp.filter (fun r => decide (r.user_name = u)) =
      mpBackup u t f live0 := by
    rw [hH, List.filter_append,
      List.filter_eq_nil_iff.mpr (fun r hr => by simp [hu r hr]),
      List.filter_eq_self.mpr (fun r hr => by simp [hbu r hr]),
      List.nil_append]
  have hmax : ((db'.hist_mp.filter (fun r => decide (r.user_name = u))).map
      (fun r => r.changed_at)).max? = some t := by
    rw [hfilu]
    refine max?_of_const (fun hc => hbackup_ne (List.map_eq_nil_iff.mp hc)) ?_
    intro x hx
    obtain ⟨r, hr, rfl⟩ := List.mem_map.mp hx
    exact hbt r hr
  have hgrp : db'.hist_mp.filter
      (fun r => decide (r.changed_at = t) && decide (r.user_name = u)) =
      mpBackup u t f live0 := by
    rw [hH, List.filter_append,
      List.filter_eq_nil_iff.mpr (fun r hr => by simp [hu r hr]),
      List.filter_eq_self.mpr (fun r hr => by simp [hbu r hr, hbt r hr]),
      List.nil_append]
  have hmapids : (mpBackup u t f live0).map (fun r => r.row.profile_id) =
      (live0.filter (fun r => (mpIds f).contains r.profile_id)).map
        (fun r => r.profile_id) := by
    rw [mpBackup, List.map_map]
    rfl
  have hids_iff : ∀ q, q ∈ dedupFirst ((mpBackup u t f live0).map
      (fun r => r.row.profile_id)) ↔ q ∈ mpIds f := by
    intro q
    rw [mem_dedupFirst, hmapids]
    constructor
    · intro hm
      obtain ⟨r, hr, rfl⟩ := List.mem_map.mp hm
      have h2 := (List.mem_filter.mp hr).2
      rw [contains_eq_decide_mem] at h2
      simpa using h2
    · intro hq
      obtain ⟨r, hr, hrq⟩ := hpre q hq
      refine List.mem_map.mpr ⟨r, List.mem_filter.mpr ⟨hr, ?_⟩, hrq⟩
      rw [contains_eq_decide_mem]
      simp [hrq, hq]
  have hids'_mem : p0 ∈ dedupFirst ((mpBackup u t f live0).map
      (fun r => r.row.profile_id)) := (hids_iff p0).mpr hp0
  have hids'_ne : (dedupFirst ((mpBackup u t f live0).map
      (fun r => r.row.profile_id))).isEmpty = false :=
    List.isEmpty_eq_false.mpr (List.ne_nil_of_mem hids'_mem)
  have hsel : db'.hist_mp.filter (fun r =>
      (dedupFirst ((mpBackup u t f live0).map
        (fun x => x.row.profile_id))).contains r.row.profile_id &&
      decide (r.changed_at = t) && decide (r.user_name = u)) =
      mpBackup u t f live0 := by
    rw [hH, List.filter_append,
      List.filter_eq_nil_iff.mpr (fun r hr => by simp [hu r hr]),
      List.filter_eq_self.mpr ?_, List.nil_append]
    intro r hr
    have hmem2 : r.row.profile_id ∈ dedupFirst ((mpBackup u t f live0).map
        (fun x => x.row.profile_id)) :=
      mem_dedupFirst.mpr (List.mem_map.mpr ⟨r, hr, rfl⟩)
    simp [hbu r hr, hbt r hr, contains_eq_decide_mem, hmem2]
  have hhist2 : db'.hist_mp.filter (fun r =>
      !((dedupFirst ((mpBackup u t f live0).map
        (fun x => x.row.profile_id))).contains r.row.profile_id &&
      decide (r.changed_at = t) && decide (r.user_name = u))) = hist0 := by
    rw [hH, List.filter_append,
      List.filter_eq_self.mpr (fun r hr => by simp [hu r hr]),
      List.filter_eq_nil_iff.mpr ?_, List.append_nil]
    intro r hr
    have hmem2 : r.row.profile_id ∈ dedupFirst ((mpBackup u t f live0).map
        (fun x => x.row.profile_id)) :=
      mem_dedupFirst.mpr (List.mem_map.mpr ⟨r, hr, rfl⟩)
    simp [hbu r hr, hbt r hr, contains_eq_decide_mem, hmem2]
  have hperm : (db'.live_mp.filter (fun r =>
      !(dedupFirst ((mpBackup u t f live0).map
        (fun x => x.row.profile_id))).contains r.profile_id) ++
      (sortByLe seqLe (mpBackup u t f live0)).map (fun r => r.row)).Perm live0 := by
    have e1 : (live0.filter
        (fun r => !(mpIds f).contains r.profile_id)).filter (fun r =>
          !(dedupFirst ((mpBackup u t f live0).map
            (fun x => x.row.profile_id))).contains r.profile_id) =
        live0.filter (fun r => !(mpIds f).contains r.profile_id) := by
      refine List.filter_eq_self.mpr ?_
      intro r hr
      have h2 := (List.mem_filter.mp hr).2
      rw [contains_eq_decide_mem] at h2 ⊢
      simp only [Bool.not_eq_true', decide_eq_false_iff_not] at h2 ⊢
      intro hin
      exact h2 ((hids_iff _).mp hin)
    have e2 : (mpNewRows f).filter (fun r =>
        !(dedupFirst ((mpBackup u t f live0).map
          (fun x => x.row.profile_id))).contains r.profile_id) = [] := by
      refine List.filter_eq_nil_iff.mpr ?_
      intro r hr
      have hin : r.profile_id ∈ dedupFirst ((mpBackup u t f live0).map
          (fun x => x.row.profile_id)) := (hids_iff _).mpr (mem_mpNewRows_profile hr)
      rw [contains_eq_decide_mem]
      simp [hin]
    have hsort : ((sortByLe seqLe (mpBackup u t f live0)).map
        (fun r => r.row)).Perm
        (live0.filter (fun r => (mpIds f).contains r.profile_id)) := by
      have h1 := (sortByLe_perm seqLe (mpBackup u t f live0)).map (fun r => r.row)
      have h2 : (mpBackup u t f live0).map (fun r => r.row) =
          live0.filter (fun r => (mpIds f).contains r.profile_id) := by
        rw [mpBackup, List.map_map]
        exact List.map_id' _
      rw [h2] at h1
      exact h1
    rw [hL, List.filter_append, e1, e2, List.append_nil]
    refine ((List.Perm.append_left _ hsort).trans List.perm_append_comm).trans ?_
    exact List.filter_append_perm _ live0
  refine ⟨_, ?_, hperm⟩
  rw [undoMpDatabase]
  simp only [Bool.false_eq_true, if_false]
  rw [hmax]
  dsimp only
  rw [hgrp]
  rw [if_neg (by rw [hids'_ne]; exact Bool.false_ne_true)]
  rw [hsel, hhist2]

/-- CPA undo after a commit: with clean prior history for the user, at
least one pre-commit live row in the session scope, and staged rows all
inside the scope, the undo restores the live CPA table to a permutation
of the pre-commit rows and deletes exactly the consumed backup
generation. -/
theorem undoCpa_generation (u : String) (t : Nat) (su : String) (d : Nat)
    (rows : List CpaRow) (live0 : List CpaRow) (hist0 : List CpaHistRow)
    (db' : DB)
    (hu : ∀ r ∈ hist0, r.user_name ≠ u)
    (hpre : ∃ r ∈ live0, scopeCpa su d r = true)
    (hscope : ∀ r ∈ rows, scopeCpa su d r = true)
    (hL : db'.live_cpa = live0.filter (fun r => !scopeCpa su d r) ++ rows)
    (hH : db'.hist_cpa = hist0 ++ cpaBackup u t su d live0) :
    ∃ L, undoCpaDatabase u false db' =
      ({ db' with live_cpa := L, hist_cpa := hist0 }, UndoOutcome.restored) ∧
      L.Perm live0 := by
  have hbu : ∀ r ∈ cpaBackup u t su d live0, r.user_name = u :=
    fun r hr => (mem_cpaBackup hr).2
  have hbt : ∀ r ∈ cpaBackup u t su d live0, r.changed_at = t :=
    fun r hr => (mem_cpaBackup hr).1
  have hbscope : ∀ r ∈ cpaBackup u t su d live0, scopeCpa su d r.row = true := by
    intro r hr
    rw [cpaBackup] at hr
    obtain ⟨x, hx, rfl⟩ := List.mem_map.mp hr
    exact (List.mem_filter.mp hx).2
  have hbackup_ne : cpaBackup u t su d live0 ≠ [] := by
    obtain ⟨r0, hr0, hr0s⟩ := hpre
    intro hc
    have : ({ row := r0, changed_at := t, user_name := u } : CpaHistRow) ∈
        cpaBackup u t su d live0 :=
      List.mem_map.mpr ⟨r0, List.mem_filter.mpr ⟨hr0, hr0s⟩, rfl⟩
    rw [hc] at this
    exact absurd this (List.not_mem_nil _)
  have hfilu : db'.hist_cpa.filter (fun r => decide (r.user_name = u)) =
      cpaBackup u t su d live0 := by
    rw [hH, List.filter_append,
      List.filter_eq_nil_iff.mpr (fun r hr => by simp [hu r hr]),
      List.filter_eq_self.mpr (fun r hr => by simp [hbu r hr]),
      List.nil_append]
  have hmax : ((db'.hist_cpa.filter (fun r => decide (r.user_name = u))).map
      (fun r => r.changed_at)).max? = some t := by
    rw [hfilu]
    refine max?_of_const (fun hc => hbackup_ne (List.map_eq_nil_iff.mp hc)) ?_
    intro x hx
    obtain ⟨r, hr, rfl⟩ := List.mem_map.mp hx
    exact hbt r hr
  have hgrp : db'.hist_cpa.filter
      (fun r => decide (r.changed_at = t) && decide (r.user_name = u)) =
      cpaBackup u t su d live0 := by
    rw [hH, List.filter_append,
      List.filter_eq_nil_iff.mpr (fun r hr => by simp [hu r hr]),
      List.filter_eq_self.mpr (fun r hr => by simp [hbu r hr, hbt r hr]),
      List.nil_append]
  have hpairs : dedupFirst ((cpaBackup u t su d live0).map
      (fun r => (r.row.survey_unit, r.row.date))) = [(su, d)] := by
    refine dedupFirst_eq_singleton
      (fun hc => hbackup_ne (List.map_eq_nil_iff.mp hc)) ?_
    intro x hx
    obtain ⟨r, hr, rfl⟩ := List.mem_map.mp hx
    have := hbscope r hr
    rw [scopeCpa, Bool.and_eq_true, decide_eq_true_eq, decide_eq_true_eq] at this
    rw [this.1, this.2]
  have hresSel : db'.hist_cpa.filter (fun r => scopeCpa su d r.row &&
      decide (r.changed_at = t) && decide (r.user_name = u)) =
      cpaBackup u t su d live0 := by
    rw [hH, List.filter_append,
      List.filter_eq_nil_iff.mpr (fun r hr => by simp [hu r hr]),
      List.filter_eq_self.mpr
        (fun r hr => by simp [hbu r hr, hbt r hr, hbscope r hr]),
      List.nil_append]
  have hhist2 : db'.hist_cpa.filter (fun r => !(scopeCpa su d r.row &&
      decide (r.changed_at = t) && decide (r.user_name = u))) = hist0 := by
    rw [hH, List.filter_append,
      List.filter_eq_self.mpr (fun r hr => by simp [hu r hr]),
      List.filter_eq_nil_iff.mpr
        (fun r hr => by simp [hbu r hr, hbt r hr, hbscope r hr]),
      List.append_nil]
  have hrestored : (db'.hist_cpa.filter (fun r => scopeCpa su d r.row &&
      decide (r.changed_at = t) && decide (r.user_name = u))).map
      (fun r => r.row) = live0.filter (fun r => scopeCpa su d r) := by
    rw [hresSel, cpaBackup, List.map_map]
    exact List.map_id' _
  have hliveA : db'.live_cpa.filter (fun r => !scopeCpa su d r) =
      live0.filter (fun r => !scopeCpa su d r) := by
    rw [hL, List.filter_append]
    have e1 : (live0.filter (fun r => !scopeCpa su d r)).filter
        (fun r => !scopeCpa su d r) =
        live0.filter (fun r => !scopeCpa su d r) :=
      List.filter_eq_self.mpr (fun r hr => (List.mem_filter.mp hr).2)
    have e2 : rows.filter (fun r => !scopeCpa su d r) = [] :=
      List.filter_eq_nil_iff.mpr (fun r hr => by simp [hscope r hr])
    rw [e1, e2, List.append_nil]
  have hperm : (db'.live_cpa.filter (fun r => !scopeCpa su d r) ++
      live0.filter (fun r => scopeCpa su d r)).Perm live0 := by
    rw [hliveA]
    exact List.perm_append_comm.trans (List.filter_append_perm _ live0)
  refine ⟨_, ?_, hperm⟩
  rw [undoCpaDatabase]
  simp only [Bool.false_eq_true, if_false]
  rw [hmax]
  dsimp only
  rw [hgrp, hpairs]
  rw [if_neg (by simp)]
  simp only [List.foldl_cons, List.foldl_nil]
  rw [hrestored, hhist2]

/-- Topo undo after a commit; same shape as the CPA case. -/
theorem undoTopo_generation (u : String) (t : Nat) (su : String) (d : Nat)
    (rows : List TopoRow) (live0 : List TopoRow) (hist0 : List TopoHistRow)
    (db' : DB)
    (hu : ∀ r ∈ hist0, r.user_name ≠ u)
    (hpre : ∃ r ∈ live0, scopeTopo su d r = true)
    (hscope : ∀ r ∈ rows, scopeTopo su d r = true)
    (hL : db'.live_topo = live0.filter (fun r => !scopeTopo su d r) ++ rows)
    (hH : db'.hist_topo = hist0 ++ topoBackup u t su d live0) :
    ∃ L, undoTopoDatabase u false db' =
      ({ db' with live_topo := L, hist_topo := hist0 }, UndoOutcome.restored) ∧
      L.Perm live0 := by
  have hbu : ∀ r ∈ topoBackup u t su d live0, r.user_name = u :=
    fun r hr => (mem_topoBackup hr).2
  have hbt : ∀ r ∈ topoBackup u t su d live0, r.changed_at = t :=
    fun r hr => (mem_topoBackup hr).1
  have hbscope : ∀ r ∈ topoBackup u t su d live0, scopeTopo su d r.row = true := by
    intro r hr
    rw [topoBackup] at hr
    obtain ⟨x, hx, rfl⟩ := List.mem_map.mp hr
    exact (List.mem_filter.mp hx).2
  have hbackup_ne : topoBackup u t su d live0 ≠ [] := by
    obtain ⟨r0, hr0, hr0s⟩ := hpre
    intro hc
    have : ({ row := r0, changed_at := t, user_name := u } : TopoHistRow) ∈
        topoBackup u t su d live0 :=
      List.mem_map.mpr ⟨r0, List.mem_filter.mpr ⟨hr0, hr0s⟩, rfl⟩
    rw [hc] at this
    exact absurd this (List.not_mem_nil _)
  have hfilu : db'.hist_topo.filter (fun r => decide (r.user_name = u)) =
      topoBackup u t su d live0 := by
    rw [hH, List.filter_append,
      List.filter_eq_nil_iff.mpr (fun r hr => by simp [hu r hr]),
      List.filter_eq_self.mpr (fun r hr => by simp [hbu r hr]),
      List.nil_append]
  have hmax : ((db'.hist_topo.filter (fun r => decide (r.user_name = u))).map
      (fun r => r.changed_at)).max? = some t := by
    rw [hfilu]
    refine max?_of_const (fun hc => hbackup_ne (List.map_eq_nil_iff.mp hc)) ?_
    intro x hx
    obtain ⟨r, hr, rfl⟩ := List.mem_map.mp hx
    exact hbt r hr
  have hgrp : db'.hist_topo.filter
      (fun r => decide (r.changed_at = t) && decide (r.user_name = u)) =
      topoBackup u t su d live0 := by
    rw [hH, List.filter_append,
      List.filter_eq_nil_iff.mpr (fun r hr => by simp [hu r hr]),
      List.filter_eq_self.mpr (fun r hr => by simp [hbu r hr, hbt r hr]),
      List.nil_append]
  have hpairs : dedupFirst ((topoBackup u t su d live0).map
      (fun r => (r.row.survey_unit, r.row.date))) = [(su, d)] := by
    refine dedupFirst_eq_singleton
      (fun hc => hbackup_ne (List.map_eq_nil_iff.mp hc)) ?_
    intro x hx
    obtain ⟨r, hr, rfl⟩ := List.mem_map.mp hx
    have := hbscope r hr
    rw [scopeTopo, Bool.and_eq_true, decide_eq_true_eq, decide_eq_true_eq] at this
    rw [this.1, this.2]
  have hresSel : db'.hist_topo.filter (fun r => scopeTopo su d r.row &&
      decide (r.changed_at = t) && decide (r.user_name = u)) =
      topoBackup u t su d live0 := by
    rw [hH, List.filter_append,
      List.filter_eq_nil_iff.mpr (fun r hr => by simp [hu r hr]),
      List.filter_eq_self.mpr
        (fun r hr => by simp [hbu r hr, hbt r hr, hbscope r hr]),
      List.nil_append]
  have hhist2 : db'.hist_topo.filter (fun r => !(scopeTopo su d r.row &&
      decide (r.changed_at = t) && decide (r.user_name = u))) = hist0 := by
    rw [hH, List.filter_append,
      List.filter_eq_self.mpr (fun r hr => by simp [hu r hr]),
      List.filter_eq_nil_iff.mpr
        (fun r hr => by simp [hbu r hr, hbt r hr, hbscope r hr]),
      List.append_nil]
  have hrestored : (db'.hist_topo.filter (fun r => scopeTopo su d r.row &&
      decide (r.changed_at = t) && decide (r.user_name = u))).map
      (fun r => r.row) = live0.filter (fun r => scopeTopo su d r) := by
    rw [hresSel, topoBackup, List.map_map]
    exact List.map_id' _
  have hliveA : db'.live_topo.filter (fun r => !scopeTopo su d r) =
      live0.filter (fun r => !scopeTopo su d r) := by
    rw [hL, List.filter_append]
    have e1 : (live0.filter (fun r => !scopeTopo su d r)).filter
        (fun r => !scopeTopo su d r) =
        live0.filter (fun r => !scopeTopo su d r) :=
      List.filter_eq_self.mpr (fun r hr => (List.mem_filter.mp hr).2)
    have e2 : rows.filter (fun r => !scopeTopo su d r) = [] :=
      List.filter_eq_nil_iff.mpr (fun r hr => by simp [hscope r hr])
    rw [e1, e2, List.append_nil]
  have hperm : (db'.live_topo.filter (fun r => !scopeTopo su d r) ++
      live0.filter (fun r => scopeTopo su d r)).Perm live0 := by
    rw [hliveA]
    exact List.perm_append_comm.trans (List.filter_append_perm _ live0)
  refine ⟨_, ?_, hperm⟩
  rw [undoTopoDatabase]
  simp only [Bool.false_eq_true, if_false]
  rw [hmax]
  dsimp only
  rw [hgrp, hpairs]
  rw [if_neg (by simp)]
  simp only [List.foldl_cons, List.foldl_nil]
  rw [hrestored, hhist2]

/-- C2 (counterexample): committing a master-profile edit for a profile
id with *no* pre-existing live rows and then undoing does not restore
the pre-commit state: the commit backed up nothing for that id, so the
master-profile undo reports nothing to undo and the newly inserted rows
stay live. -/
theorem c2_counterexample_new_profile_survives_undo :
    (undo_last_push "u" "S" 1 false false false
      (end_session_and_push "u" 10 "S" 1 [tRow2] fExQ [cRow2] false []
        false false false false db0ExNoMp)).1.live_mp ≠ db0ExNoMp.live_mp := by
  decide

/-- C2 (amended): when the acting user has no prior history rows, every
staged master-profile id has at least one pre-commit live row, the
session scope has at least one pre-commit live CPA and topo row, and the
staged CPA/topo rows lie inside the session scope, then undo immediately
after the commit restores all three live tables to (a permutation of)
their exact pre-commit rows — stored sequence values verbatim — and
returns the history tables to their pre-commit contents. -/
theorem c2_amended_commit_undo_roundtrip (u : String) (t : Nat) (su : String)
    (d : Nat) (tempTopo : List TopoRow) (f : MpFrame) (tempCpa : List CpaRow)
    (pi : Bool) (flagged : List (String × String)) (fq : Bool) (db : DB)
    (humc : ∀ r ∈ db.hist_mp, r.user_name ≠ u)
    (hucc : ∀ r ∈ db.hist_cpa, r.user_name ≠ u)
    (hutc : ∀ r ∈ db.hist_topo, r.user_name ≠ u)
    (hTne : tempTopo.isEmpty = false)
    (hRne : f.rows.isEmpty = false)
    (hMine : (mpIds f).isEmpty = false)
    (hCne : tempCpa.isEmpty = false)
    (hpreM : ∀ p ∈ mpIds f, ∃ r ∈ db.live_mp, r.profile_id = p)
    (hpreC : ∃ r ∈ db.live_cpa, scopeCpa su d r = true)
    (hpreT : ∃ r ∈ db.live_topo, scopeTopo su d r = true)
    (hscopeC : ∀ r ∈ tempCpa, scopeCpa su d r = true)
    (hscopeT : ∀ r ∈ tempTopo, scopeTopo su d r = true) :
    ∀ db1 res,
      db1 = end_session_and_push u t su d tempTopo f tempCpa pi flagged
        false false false fq db →
      res = undo_last_push u su d false false false db1 →
      res.1.live_mp.Perm db.live_mp ∧
      res.1.live_cpa.Perm db.live_cpa ∧
      res.1.live_topo.Perm db.live_topo ∧
      res.1.hist_mp = db.hist_mp ∧
      res.1.hist_cpa = db.hist_cpa ∧
      res.1.hist_topo = db.hist_topo ∧
      res.2 = (UndoOutcome.restored, UndoOutcome.restored, UndoOutcome.restored) := by
  intro db1 res hdb1 hres
  subst hdb1
  subst hres
  have hLmp : (end_session_and_push u t su d tempTopo f tempCpa pi flagged
      false false false fq db).live_mp =
      db.live_mp.filter (fun r => !(mpIds f).contains r.profile_id) ++
        mpNewRows f := by
    rw [end_session_and_push_eq]
    simp [hRne, hMine]
  have hHmp : (end_session_and_push u t su d tempTopo f tempCpa pi flagged
      false false false fq db).hist_mp =
      db.hist_mp ++ mpBackup u (t + 1) f db.live_mp := by
    rw [end_session_and_push_eq]
    simp [hRne, hMine]
  have hLcpa : (end_session_and_push u t su d tempTopo f tempCpa pi flagged
      false false false fq db).live_cpa =
      db.live_cpa.filter (fun r => !scopeCpa su d r) ++ tempCpa := by
    rw [end_session_and_push_eq]
    simp [hCne]
  have hHcpa : (end_session_and_push u t su d tempTopo f tempCpa pi flagged
      false false false fq db).hist_cpa =
      db.hist_cpa ++ cpaBackup u (t + 2) su d db.live_cpa := by
    rw [end_session_and_push_eq]
    simp [hCne]
  have hLtopo : (end_session_and_push u t su d tempTopo f tempCpa pi flagged
      false false false fq db).live_topo =
      db.live_topo.filter (fun r => !scopeTopo su d r) ++ tempTopo := by
    rw [end_session_and_push_eq]
    simp [hTne]
  have hHtopo : (end_session_and_push u t su d tempTopo f tempCpa pi flagged
      false false false fq db).hist_topo =
      db.hist_topo ++ topoBackup u t su d db.live_topo := by
    rw [end_session_and_push_eq]
    simp [hTne]
  obtain ⟨Lm, hr1eq, hLmperm⟩ := undoMp_generation u (t + 1) f db.live_mp
    db.hist_mp _ humc hMine hpreM hLmp hHmp
  obtain ⟨Lc, hr2eq, hLcperm⟩ := undoCpa_generation u (t + 2) su d tempCpa
    db.live_cpa db.hist_cpa
    ({ end_session_and_push u t su d tempTopo f tempCpa pi flagged
        false false false fq db with live_mp := Lm, hist_mp := db.hist_mp })
    hucc hpreC hscopeC hLcpa hHcpa
  obtain ⟨Lt, hr3eq, hLtperm⟩ := undoTopo_generation u t su d tempTopo
    db.live_topo db.hist_topo
    ({ { end_session_and_push u t su d tempTopo f tempCpa pi flagged
          false false false fq db with live_mp := Lm, hist_mp := db.hist_mp }
        with live_cpa := Lc, hist_cpa := db.hist_cpa })
    hutc hpreT hscopeT hLtopo hHtopo
  rw [undo_last_push]
  dsimp only
  rw [hr1eq]
  dsimp only
  rw [hr2eq]
  dsimp only
  rw [hr3eq]
  dsimp only
  obtain ⟨hq1, hq2, hq3, hq4, hq5, hq6⟩ := undoQcLogFlags_frame su d
    ({ { { end_session_and_push u t su d tempTopo f tempCpa pi flagged
            false false false fq db with live_mp := Lm, hist_mp := db.hist_mp }
          with live_cpa := Lc, hist_cpa := db.hist_cpa }
        with live_topo := Lt, hist_topo := db.hist_topo })
  rw [hq1, hq2, hq3, hq4, hq5, hq6]
  exact ⟨hLmperm, hLcperm, hLtperm, rfl, rfl, rfl, rfl⟩

/-- Witness for the amended C2 theorem at a concrete one-row-per-table
database and changeset. -/
theorem c2_amended_witness :
    (undo_last_push "u" "S" 1 false false false
      (end_session_and_push "u" 10 "S" 1 [tRow2] fEx [cRow2] false []
        false false false false db0Ex)).1.live_mp.Perm db0Ex.live_mp ∧
    (undo_last_push "u" "S" 1 false false false
      (end_session_and_push "u" 10 "S" 1 [tRow2] fEx [cRow2] false []
        false false false false db0Ex)).1.live_cpa.Perm db0Ex.live_cpa ∧
    (undo_last_push "u" "S" 1 false false false
      (end_session_and_push "u" 10 "S" 1 [tRow2] fEx [cRow2] false []
        false false false false db0Ex)).1.live_topo.Perm db0Ex.live_topo ∧
    (undo_last_push "u" "S" 1 false false false
      (end_session_and_push "u" 10 "S" 1 [tRow2] fEx [cRow2] false []
        false false false false db0Ex)).1.hist_mp = db0Ex.hist_mp ∧
    (undo_last_push "u" "S" 1 false false false
      (end_session_and_push "u" 10 "S" 1 [tRow2] fEx [cRow2] false []
        false false false false db0Ex)).1.hist_cpa = db0Ex.hist_cpa ∧
    (undo_last_push "u" "S" 1 false false false
      (end_session_and_push "u" 10 "S" 1 [tRow2] fEx [cRow2] false []
        false false false false db0Ex)).1.hist_topo = db0Ex.hist_topo ∧
    (undo_last_push "u" "S" 1 false false false
      (end_session_and_push "u" 10 "S" 1 [tRow2] fEx [cRow2] false []
        false false false false db0Ex)).2 =
      (UndoOutcome.restored, UndoOutcome.restored, UndoOutcome.restored) :=
  c2_amended_commit_undo_roundtrip "u" 10 "S" 1 [tRow2] fEx [cRow2] false []
    false db0Ex (by decide) (by decide) (by decide) (by decide) (by decide)
    (by decide) (by decide) (by decide) (by decide) (by decide) (by decide)
    (by decide) _ _ rfl rfl

/-- C3 (counterexample): for an actor whose history holds two
generations (timestamps 1 and 2), two consecutive undo calls with no
intervening commit do *not* yield NothingToUndo on the second call: the
first undo consumes only the newest generation, and the second call
restores the older one. -/
theorem c3_counterexample_second_undo_restores_older_generation :
    (undo_last_push "u" "S" 1 false false false
      (undo_last_push "u" "S" 1 false false false dbTwoGenEx).1).2.1 =
      UndoOutcome.restored ∧
    (undo_last_push "u" "S" 1 false false false
      (undo_last_push "u" "S" 1 false false false dbTwoGenEx).1).2.1 ≠
      UndoOutcome.nothingToUndo := by decide

/-- C3 (amended): the second undo yields NothingToUndo for every table
precisely when the first undo left no history rows for the actor — which
holds when the actor's history held a single generation, e.g. it was
empty before the commit being undone.  Part one: an undo for a user with
no history rows is a no-op on all three tables and reports NothingToUndo
for each.  Part two: after a commit on a clean history followed by one
undo (under the round-trip hypotheses), the actor's history rows are
again gone, so part one applies to the second call. -/
theorem c3_amended_second_undo_nothing (u : String) (t : Nat) (su : String)
    (d : Nat) (tempTopo : List TopoRow) (f : MpFrame) (tempCpa : List CpaRow)
    (pi : Bool) (flagged : List (String × String)) (fq : Bool) (db : DB)
    (humc : ∀ r ∈ db.hist_mp, r.user_name ≠ u)
    (hucc : ∀ r ∈ db.hist_cpa, r.user_name ≠ u)
    (hutc : ∀ r ∈ db.hist_topo, r.user_name ≠ u)
    (hTne : tempTopo.isEmpty = false)
    (hRne : f.rows.isEmpty = false)
    (hMine : (mpIds f).isEmpty = false)
    (hCne : tempCpa.isEmpty = false)
    (hpreM : ∀ p ∈ mpIds f, ∃ r ∈ db.live_mp, r.profile_id = p)
    (hpreC : ∃ r ∈ db.live_cpa, scopeCpa su d r = true)
    (hpreT : ∃ r ∈ db.live_topo, scopeTopo su d r = true)
    (hscopeC : ∀ r ∈ tempCpa, scopeCpa su d r = true)
    (hscopeT : ∀ r ∈ tempTopo, scopeTopo su d r = true) :
    (∀ dbA : DB,
      (∀ r ∈ dbA.hist_mp, r.user_name ≠ u) →
      (∀ r ∈ dbA.hist_cpa, r.user_name ≠ u) →
      (∀ r ∈ dbA.hist_topo, r.user_name ≠ u) →
      undo_last_push u su d false false false dbA =
        (undoQcLogFlags su d dbA,
          (UndoOutcome.nothingToUndo, UndoOutcome.nothingToUndo,
            UndoOutcome.nothingToUndo))) ∧
    (∀ db1 res1,
      db1 = end_session_and_push u t su d tempTopo f tempCpa pi flagged
        false false false fq db →
      res1 = undo_last_push u su d false false false db1 →
      (∀ r ∈ res1.1.hist_mp, r.user_name ≠ u) ∧
      (∀ r ∈ res1.1.hist_cpa, r.user_name ≠ u) ∧
      (∀ r ∈ res1.1.hist_topo, r.user_name ≠ u)) := by
  constructor
  · intro dbA h1 h2 h3
    rw [undo_last_push]
    try dsimp only
    rw [undoMp_nothing u dbA h1]
    try dsimp only
    rw [undoCpa_nothing u dbA h2]
    try dsimp only
    rw [undoTopo_nothing u dbA h3]
  · intro db1 res1 hdb1 hres1
    subst hdb1
    subst hres1
    have hLmp : (end_session_and_push u t su d tempTopo f tempCpa pi flagged
        false false false fq db).live_mp =
        db.live_mp.filter (fun r => !(mpIds f).contains r.profile_id) ++
          mpNewRows f := by
      rw [end_session_and_push_eq]
      simp [hRne, hMine]
    have hHmp : (end_session_and_push u t su d tempTopo f tempCpa pi flagged
        false false false fq db).hist_mp =
        db.hist_mp ++ mpBackup u (t + 1) f db.live_mp := by
      rw [end_session_and_push_eq]
      simp [hRne, hMine]
    have hLcpa : (end_session_and_push u t su d tempTopo f tempCpa pi flagged
        false false false fq db).live_cpa =
        db.live_cpa.filter (fun r => !scopeCpa su d r) ++ tempCpa := by
      rw [end_session_and_push_eq]
      simp [hCne]
    have hHcpa : (end_session_and_push u t su d tempTopo f tempCpa pi flagged
        false false false fq db).hist_cpa =
        db.hist_cpa ++ cpaBackup u (t + 2) su d db.live_cpa := by
      rw [end_session_and_push_eq]
      simp [hCne]
    have hLtopo : (end_session_and_push u t su d tempTopo f tempCpa pi flagged
        false false false fq db).live_topo =
        db.live_topo.filter (fun r => !scopeTopo su d r) ++ tempTopo := by
      rw [end_session_and_push_eq]
      simp [hTne]
    have hHtopo : (end_session_and_push u t su d tempTopo f tempCpa pi flagged
        false false false fq db).hist_topo =
        db.hist_topo ++ topoBackup u t su d db.live_topo := by
      rw [end_session_and_push_eq]
      simp [hTne]
    obtain ⟨Lm, hr1eq, _⟩ := undoMp_generation u (t + 1) f db.live_mp
      db.hist_mp _ humc hMine hpreM hLmp hHmp
    obtain ⟨Lc, hr2eq, _⟩ := undoCpa_generation u (t + 2) su d tempCpa
      db.live_cpa db.hist_cpa
      ({ end_session_and_push u t su d tempTopo f tempCpa pi flagged
          false false false fq db with live_mp := Lm, hist_mp := db.hist_mp })
      hucc hpreC hscopeC hLcpa hHcpa
    obtain ⟨Lt, hr3eq, _⟩ := undoTopo_generation u t su d tempTopo
      db.live_topo db.hist_topo
      ({ { end_session_and_push u t su d tempTopo f tempCpa pi flagged
            false false false fq db with live_mp := Lm, hist_mp := db.hist_mp }
          with live_cpa := Lc, hist_cpa := db.hist_cpa })
      hutc hpreT hscopeT hLtopo hHtopo
    rw [undo_last_push]
    dsimp only
    rw [hr1eq]
    dsimp only
    rw [hr2eq]
    dsimp only
    rw [hr3eq]
    dsimp only
    obtain ⟨hq1, hq2, hq3, hq4, hq5, hq6⟩ := undoQcLogFlags_frame su d
      ({ { { end_session_and_push u t su d tempTopo f tempCpa pi flagged
              false false false fq db with live_mp := Lm, hist_mp := db.hist_mp }
            with live_cpa := Lc, hist_cpa := db.hist_cpa }
          with live_topo := Lt, hist_topo := db.hist_topo })
    rw [hq4, hq5, hq6]
    exact ⟨humc, hucc, hutc⟩

/-- Witness for the amended C3 theorem: the second undo after a concrete
commit-and-undo round trip is a NothingToUndo no-op on the three
tables. -/
theorem c3_amended_witness :
    undo_last_push "u" "S" 1 false false false
        (undo_last_push "u" "S" 1 false false false
          (end_session_and_push "u" 10 "S" 1 [tRow2] fEx [cRow2] false []
            false false false false db0Ex)).1 =
      (undoQcLogFlags "S" 1
        (undo_last_push "u" "S" 1 false false false
          (end_session_and_push "u" 10 "S" 1 [tRow2] fEx [cRow2] false []
            false false false false db0Ex)).1,
        (UndoOutcome.nothingToUndo, UndoOutcome.nothingToUndo,
          UndoOutcome.nothingToUndo)) :=
  (c3_amended_second_undo_nothing "u" 10 "S" 1 [tRow2] fEx [cRow2] false []
    false db0Ex (by decide) (by decide) (by decide) (by decide) (by decide)
    (by decide) (by decide) (by decide) (by decide) (by decide) (by decide)
    (by decide)).1 _ (by decide) (by decide) (by decide)

end QCGui
